import Mathlib

/-!
Verification development for the face_comm gesture-classification engine
(`src/gesture_detector.py`).

The temporal core (`GestureDetector.detect`) is shallowly embedded over ℚ:
every per-frame scalar feature (eye/mouth aspect ratios, eyebrow
displacement, head-tilt angle) is a rational, and the wall-clock time of a
frame is passed explicitly (the Python code calls `time.time()` within the
frame; all such calls within one frame are modelled by the single frame
time).  The feature extractor (`_calculate_eye_aspect_ratio`,
`_calculate_mouth_aspect_ratio`) is embedded separately over ℝ, since it
divides Euclidean norms.

Python `deque(maxlen=m)` buffers are modelled as lists together with an
explicit capacity recorded at construction time; appending drops the oldest
element on overflow.  Python dicts keyed by gesture type
(`last_gesture_time`, `gesture_confirmed`) are records with one field per
gesture; `dict.get(g, default)` corresponds to the record defaults.
-/

/-- The gesture kinds of `GestureType` (gesture_detector.py lines 22-30). -/
inductive GestureType where
  | NONE
  | DOUBLE_BLINK
  | LONG_CLOSE
  | EYEBROWS_RAISED
  | MOUTH_OPEN
  | HEAD_TILT_LEFT
  | HEAD_TILT_RIGHT
deriving DecidableEq, Repr

/-- Per-frame output snapshot, `GestureState` (lines 33-58), with the same
field defaults as the Python dataclass. -/
structure GestureState where
  face_detected : Bool := false
  eyes_closed : Bool := false
  left_eye_ar : ℚ := 0
  right_eye_ar : ℚ := 0
  mouth_open : Bool := false
  mouth_ar : ℚ := 0
  eyebrows_raised : Bool := false
  eyebrow_position : ℚ := 0
  head_tilt_angle : ℚ := 0
  head_tilt_left : Bool := false
  head_tilt_right : Bool := false
  head_tilt_center : Bool := true
  detected_gesture : GestureType := GestureType.NONE
deriving DecidableEq, Repr

/-- Threshold configuration, `Thresholds` (lines 61-84), with the Python
defaults. -/
structure Thresholds where
  eye_ar_threshold : ℚ := 0.20
  min_blink_frames : ℕ := 2
  double_blink_interval : ℚ := 0.8
  long_close_frames : ℕ := 30
  mouth_ar_threshold : ℚ := 0.30
  mouth_confirm_frames : ℕ := 5
  eyebrow_raise_threshold : ℚ := 0.020
  eyebrow_confirm_frames : ℕ := 5
  head_tilt_threshold : ℚ := 15
  head_tilt_deadzone : ℚ := 7
  head_tilt_confirm_frames : ℕ := 5
  gesture_cooldown : ℚ := 0.5
deriving DecidableEq, Repr

/-- The dict `self.last_gesture_time : Dict[GestureType, float]` (line 175).
A field holds `none` when the key is absent (gesture never fired). -/
structure LastTimes where
  double_blink : Option ℚ := none
  long_close : Option ℚ := none
  eyebrows_raised : Option ℚ := none
  mouth_open : Option ℚ := none
  head_tilt_left : Option ℚ := none
  head_tilt_right : Option ℚ := none
deriving DecidableEq, Repr

/-- The dict `self.gesture_confirmed : Dict[GestureType, bool]` (line 178).
`dict.get(g, False)` makes an absent key behave as `false`, so plain `Bool`
fields with default `false` are an exact model. -/
structure Confirmed where
  double_blink : Bool := false
  long_close : Bool := false
  eyebrows_raised : Bool := false
  mouth_open : Bool := false
  head_tilt_left : Bool := false
  head_tilt_right : Bool := false
deriving DecidableEq, Repr

/-- `deque(maxlen=m).append(x)`: append on the right, dropping from the left
when the capacity is exceeded. -/
def dequeAppend {α : Type} (m : ℕ) (xs : List α) (x : α) : List α :=
  let ys := xs ++ [x]
  if m < ys.length then ys.drop (ys.length - m) else ys

/-- `GestureDetector` instance state (lines 141-181).  The `*_maxlen` fields
record the deque capacities, which the constructor sizes from the
construction-time thresholds (lines 160-164) and which later threshold
swaps do not touch. -/
structure Detector where
  thresholds : Thresholds
  eye_maxlen : ℕ
  mouth_maxlen : ℕ
  eyebrow_maxlen : ℕ
  headL_maxlen : ℕ
  headR_maxlen : ℕ
  eye_closed_history : List Bool
  mouth_open_history : List Bool
  eyebrow_raised_history : List Bool
  head_tilt_left_history : List Bool
  head_tilt_right_history : List Bool
  last_blink_time : ℚ
  blink_count : ℕ
  eyebrow_baseline_history : List ℚ
  eyebrow_baseline : Option ℚ
  last_gesture_time : LastTimes
  gesture_confirmed : Confirmed
deriving DecidableEq, Repr

/-- `GestureDetector.__init__` (lines 141-181): empty windows, capacities
sized from the construction-time thresholds, empty dicts, zero counters. -/
def Detector.init (th : Thresholds) : Detector where
  thresholds := th
  eye_maxlen := th.long_close_frames
  mouth_maxlen := th.mouth_confirm_frames
  eyebrow_maxlen := th.eyebrow_confirm_frames
  headL_maxlen := th.head_tilt_confirm_frames
  headR_maxlen := th.head_tilt_confirm_frames
  eye_closed_history := []
  mouth_open_history := []
  eyebrow_raised_history := []
  head_tilt_left_history := []
  head_tilt_right_history := []
  last_blink_time := 0
  blink_count := 0
  eyebrow_baseline_history := []
  eyebrow_baseline := none
  last_gesture_time := {}
  gesture_confirmed := {}

/-- `GestureDetector.update_thresholds` (lines 456-458): swaps the whole
threshold record, nothing else. -/
def Detector.update_thresholds (d : Detector) (th : Thresholds) : Detector :=
  { d with thresholds := th }

/-- `_is_gesture_available` (lines 235-241): available iff never fired or
the elapsed time since the last firing reaches the shared cooldown. -/
def availableAt (th : Thresholds) (lastFired : Option ℚ) (t : ℚ) : Bool :=
  match lastFired with
  | none => true
  | some t0 => decide (th.gesture_cooldown ≤ t - t0)

/-- Eyes-closed judgment (lines 293-296): average of the two eye aspect
ratios below the threshold. -/
def Thresholds.closedJudge (th : Thresholds) (leftEAR rightEAR : ℚ) : Bool :=
  decide ((rightEAR + leftEAR) / 2 < th.eye_ar_threshold)

/-- Mouth-open judgment (line 341). -/
def Thresholds.mouthJudge (th : Thresholds) (mouthAR : ℚ) : Bool :=
  decide (th.mouth_ar_threshold < mouthAR)

/-- Eyebrow head-pose gate (line 379): eyebrow detection is only evaluated
while `|angle| > 180 - head_tilt_threshold`. -/
def Thresholds.eyebrowGate (th : Thresholds) (headTilt : ℚ) : Bool :=
  decide (180 - th.head_tilt_threshold < |headTilt|)

/-- Eyebrows-raised judgment (lines 380-385): gated by head pose,
unconditionally false while the baseline is inactive, otherwise a rise of
more than the threshold above the baseline. -/
def Thresholds.eyebrowJudge (th : Thresholds) (baseline : Option ℚ)
    (eyebrowPos headTilt : ℚ) : Bool :=
  th.eyebrowGate headTilt &&
    (match baseline with
     | some b => decide (th.eyebrow_raise_threshold < eyebrowPos - b)
     | none => false)

/-- Centered band (line 371): `|angle| > 180 - deadzone`. -/
def Thresholds.headCentered (th : Thresholds) (headTilt : ℚ) : Bool :=
  decide (180 - th.head_tilt_deadzone < |headTilt|)

/-- Left band (lines 413-418): outside the deadzone, negative, above
`-(180 - deadzone)`. -/
def Thresholds.headLeftJudge (th : Thresholds) (headTilt : ℚ) : Bool :=
  !th.headCentered headTilt &&
    decide (headTilt < 0 ∧ -(180 - th.head_tilt_deadzone) < headTilt)

/-- Right band (lines 419-421): outside the deadzone, positive, below
`180 - deadzone`. -/
def Thresholds.headRightJudge (th : Thresholds) (headTilt : ℚ) : Bool :=
  !th.headCentered headTilt &&
    decide (0 < headTilt ∧ headTilt < 180 - th.head_tilt_deadzone)

/-- The event list contribution of one gesture channel: a singleton when
the channel fired this frame (the Python code invokes the callback from
`_confirm_gesture`), empty otherwise. -/
def fireEv (fired : Bool) (g : GestureType) : List GestureType :=
  if fired then [g] else []

/-- A frame as seen by the classifier: either no face, or the five scalar
features the Python code computes from the landmarks before any temporal
logic runs (lines 282-293: the two EARs; line 339: the mouth AR; line 374:
the eyebrow position; line 357: the head-tilt angle). -/
inductive FrameInput where
  | noFace
  | face (leftEAR rightEAR mouthAR eyebrowPos headTilt : ℚ)
deriving DecidableEq, Repr

/-- `GestureDetector.detect` (lines 259-440), one frame.

Returns the state snapshot, the updated detector and the list of gesture
events emitted via `_confirm_gesture` callbacks, in emission order.  The
translation is a direct dataflow rendering of the method body: every
`let`-bound value corresponds to the cited lines, evaluated in the same
order; no block reads a value another block wrote except as in the source.

Two flattenings of dead branches, both noted here so the translation can be
re-traced: (a) in the double-blink branch (lines 318-325) the counter is
incremented under the guard `blink_count >= 1`, so the subsequent
`blink_count >= 2` test always passes and firing coincides with the guard;
(b) `_confirm_gesture` and `_is_gesture_available` call `time.time()`
again inside the frame, modelled by the single frame time `t`. -/
def Detector.detect (d : Detector) (t : ℚ) (inp : FrameInput) :
    GestureState × Detector × List GestureType :=
  match inp with
  | FrameInput.noFace =>
    -- lines 274-275: no face; default snapshot, no state update
    ({}, d, [])
  | FrameInput.face leftEAR rightEAR mouthAR eyebrowPos headTilt =>
    let th := d.thresholds
    -- lines 291-297: eyes-closed judgment from the average EAR
    let eyes_closed := th.closedJudge leftEAR rightEAR
    -- line 300: append to the eyes-closed window
    let eye_hist := dequeAppend d.eye_maxlen d.eye_closed_history eyes_closed
    -- lines 304-309: closed→open edge via the two most recent samples
    let was_closed :=
      decide (2 ≤ eye_hist.length) && eye_hist.getD (eye_hist.length - 2) false
    let edge := was_closed && !eyes_closed
    -- lines 310-314: cooldown discards the in-progress sequence
    let db_avail := availableAt th d.last_gesture_time.double_blink t
    -- lines 316-318: a prior blink within the interval
    let db_seq := decide (t - d.last_blink_time < th.double_blink_interval) &&
      decide (1 ≤ d.blink_count)
    -- lines 319-325: second blink fires DOUBLE_BLINK and resets the sequence
    let db_fired := edge && db_avail && db_seq
    -- lines 313-314, 324-325, 328-329: counter and timestamp updates
    let blink_count' :=
      if edge then (if !db_avail then 0 else if db_seq then 0 else 1)
      else d.blink_count
    let last_blink_time' :=
      if edge then (if !db_avail then 0 else if db_seq then 0 else t)
      else d.last_blink_time
    -- lines 331-336: long close fires on a completely full all-true window
    let lc_fired := decide (eye_hist.length = th.long_close_frames) &&
      eye_hist.all (fun b => b) && availableAt th d.last_gesture_time.long_close t
    -- lines 338-342: mouth judgment
    let mouth_detected := th.mouthJudge mouthAR
    -- lines 344-346: closed mouth clears the confirm latch immediately
    let conf_mo0 := mouth_detected && d.gesture_confirmed.mouth_open
    -- line 348: append to the mouth window
    let mouth_hist := dequeAppend d.mouth_maxlen d.mouth_open_history mouth_detected
    -- lines 349-354: full window + available + latch clear fires MOUTH_OPEN
    let mo_fired := mouth_hist.all (fun b => b) &&
      decide (mouth_hist.length = th.mouth_confirm_frames) &&
      availableAt th d.last_gesture_time.mouth_open t && !conf_mo0
    -- lines 356-371: head-tilt angle interpretation
    let is_head_centered := th.headCentered headTilt
    -- lines 373-385: eyebrow judgment, gated by head pose
    let eyebrows_detected := th.eyebrowJudge d.eyebrow_baseline eyebrowPos headTilt
    -- lines 387-393: baseline update only while gated in and not raised
    let baseline_update := th.eyebrowGate headTilt && !eyebrows_detected
    let eyebrow_baseline_history' :=
      if baseline_update then dequeAppend 30 d.eyebrow_baseline_history eyebrowPos
      else d.eyebrow_baseline_history
    -- lines 390-391: the baseline activates once 10 samples accumulated
    let eyebrow_baseline' :=
      if baseline_update && decide (10 ≤ eyebrow_baseline_history'.length) then
        some (eyebrow_baseline_history'.sum / (eyebrow_baseline_history'.length : ℚ))
      else d.eyebrow_baseline
    -- line 393: a gated-in non-raised sample clears the confirm latch
    let conf_eb0 :=
      if baseline_update then false else d.gesture_confirmed.eyebrows_raised
    -- line 397: append to the eyebrow window
    let eyebrow_hist :=
      dequeAppend d.eyebrow_maxlen d.eyebrow_raised_history eyebrows_detected
    -- lines 398-403: emission rule, identical in shape to mouth-open
    let eb_fired := eyebrow_hist.all (fun b => b) &&
      decide (eyebrow_hist.length = th.eyebrow_confirm_frames) &&
      availableAt th d.last_gesture_time.eyebrows_raised t && !conf_eb0
    -- lines 405-421: band classification; centered clears both head latches
    let head_tilt_left := th.headLeftJudge headTilt
    let head_tilt_right := th.headRightJudge headTilt
    let conf_hl0 :=
      if is_head_centered then false else d.gesture_confirmed.head_tilt_left
    let conf_hr0 :=
      if is_head_centered then false else d.gesture_confirmed.head_tilt_right
    -- lines 423-424: append to the two head windows
    let headL_hist := dequeAppend d.headL_maxlen d.head_tilt_left_history head_tilt_left
    let headR_hist := dequeAppend d.headR_maxlen d.head_tilt_right_history head_tilt_right
    -- lines 426-438: head-tilt emissions
    let hl_fired := headL_hist.all (fun b => b) &&
      decide (headL_hist.length = th.head_tilt_confirm_frames) &&
      availableAt th d.last_gesture_time.head_tilt_left t && !conf_hl0
    let hr_fired := headR_hist.all (fun b => b) &&
      decide (headR_hist.length = th.head_tilt_confirm_frames) &&
      availableAt th d.last_gesture_time.head_tilt_right t && !conf_hr0
    -- the snapshot: each field as assigned in the method body; the single
    -- detected_gesture slot is overwritten in evaluation order, so the
    -- last channel to fire this frame wins
    let st : GestureState :=
      { face_detected := true
        eyes_closed := eyes_closed
        left_eye_ar := leftEAR
        right_eye_ar := rightEAR
        mouth_open := mouth_detected
        mouth_ar := mouthAR
        eyebrows_raised := eyebrows_detected
        eyebrow_position := eyebrowPos
        head_tilt_angle := headTilt
        head_tilt_left := head_tilt_left
        head_tilt_right := head_tilt_right
        head_tilt_center := is_head_centered
        detected_gesture :=
          if hr_fired then GestureType.HEAD_TILT_RIGHT
          else if hl_fired then GestureType.HEAD_TILT_LEFT
          else if eb_fired then GestureType.EYEBROWS_RAISED
          else if mo_fired then GestureType.MOUTH_OPEN
          else if lc_fired then GestureType.LONG_CLOSE
          else if db_fired then GestureType.DOUBLE_BLINK
          else GestureType.NONE }
    let d' : Detector :=
      { d with
        eye_closed_history := eye_hist
        mouth_open_history := mouth_hist
        eyebrow_raised_history := eyebrow_hist
        head_tilt_left_history := headL_hist
        head_tilt_right_history := headR_hist
        blink_count := blink_count'
        last_blink_time := last_blink_time'
        eyebrow_baseline_history := eyebrow_baseline_history'
        eyebrow_baseline := eyebrow_baseline'
        last_gesture_time :=
          { double_blink :=
              if db_fired then some t else d.last_gesture_time.double_blink
            long_close :=
              if lc_fired then some t else d.last_gesture_time.long_close
            eyebrows_raised :=
              if eb_fired then some t else d.last_gesture_time.eyebrows_raised
            mouth_open :=
              if mo_fired then some t else d.last_gesture_time.mouth_open
            head_tilt_left :=
              if hl_fired then some t else d.last_gesture_time.head_tilt_left
            head_tilt_right :=
              if hr_fired then some t else d.last_gesture_time.head_tilt_right }
        gesture_confirmed :=
          { double_blink := d.gesture_confirmed.double_blink || db_fired
            long_close := d.gesture_confirmed.long_close || lc_fired
            eyebrows_raised := conf_eb0 || eb_fired
            mouth_open := conf_mo0 || mo_fired
            head_tilt_left := conf_hl0 || hl_fired
            head_tilt_right := conf_hr0 || hr_fired } }
    let evs :=
      fireEv db_fired GestureType.DOUBLE_BLINK ++
      fireEv lc_fired GestureType.LONG_CLOSE ++
      fireEv mo_fired GestureType.MOUTH_OPEN ++
      fireEv eb_fired GestureType.EYEBROWS_RAISED ++
      fireEv hl_fired GestureType.HEAD_TILT_LEFT ++
      fireEv hr_fired GestureType.HEAD_TILT_RIGHT
    (st, d', evs)

/-- Run the classifier over a list of timed frames, collecting the
per-frame snapshots and event lists. -/
def runDetect (d : Detector) (frames : List (ℚ × FrameInput)) :
    Detector × List (GestureState × List GestureType) :=
  match frames with
  | [] => (d, [])
  | f :: rest =>
    let r := d.detect f.1 f.2
    let rr := runDetect r.2.1 rest
    (rr.1, (r.1, r.2.2) :: rr.2)

/-- A face frame given by its time and the five scalar features. -/
structure Fr where
  t : ℚ
  le : ℚ
  re : ℚ
  mar : ℚ
  ebp : ℚ
  ht : ℚ
deriving DecidableEq, Repr

def Fr.toInput (f : Fr) : ℚ × FrameInput :=
  (f.t, FrameInput.face f.le f.re f.mar f.ebp f.ht)

/-- Run over face frames only. -/
def runFr (d : Detector) (fs : List Fr) :
    Detector × List (GestureState × List GestureType) :=
  runDetect d (fs.map Fr.toInput)

/-- Per-frame emission counts of one gesture kind. -/
def outCounts (g : GestureType) (out : List (GestureState × List GestureType)) :
    List ℕ :=
  out.map fun p => p.2.count g

/-- Total emission count of one gesture kind over a run. -/
def totalCount (g : GestureType) (out : List (GestureState × List GestureType)) :
    ℕ :=
  (outCounts g out).sum

/-! ### Firing conditions extracted from `detect`

Each `*FiredAt` definition is the literal firing condition of the
corresponding channel inside `Detector.detect`, expressed over the
pre-frame detector state; the agreement with `detect` is by `rfl` in the
frame lemmas below. -/

/-- The closed→open edge test of the double-blink channel (lines 306-309),
over the eyes-closed window as it stands after this frame's append. -/
def Detector.edgeAt (d : Detector) (le re : ℚ) : Bool :=
  let ec := d.thresholds.closedJudge le re
  let eh := dequeAppend d.eye_maxlen d.eye_closed_history ec
  (decide (2 ≤ eh.length) && eh.getD (eh.length - 2) false) && !ec

/-- Double-blink availability (cooldown) at frame time `t`. -/
def Detector.dbAvailAt (d : Detector) (t : ℚ) : Bool :=
  availableAt d.thresholds d.last_gesture_time.double_blink t

/-- A prior blink recorded within the double-blink interval (line 318). -/
def Detector.dbSeqAt (d : Detector) (t : ℚ) : Bool :=
  decide (t - d.last_blink_time < d.thresholds.double_blink_interval) &&
    decide (1 ≤ d.blink_count)

/-- DOUBLE_BLINK fires this frame (lines 318-323). -/
def Detector.dbFiredAt (d : Detector) (t le re : ℚ) : Bool :=
  d.edgeAt le re && d.dbAvailAt t && d.dbSeqAt t

/-- LONG_CLOSE fires this frame (lines 332-334). -/
def Detector.lcFiredAt (d : Detector) (t le re : ℚ) : Bool :=
  let eh := dequeAppend d.eye_maxlen d.eye_closed_history (d.thresholds.closedJudge le re)
  decide (eh.length = d.thresholds.long_close_frames) && eh.all (fun b => b) &&
    availableAt d.thresholds d.last_gesture_time.long_close t

/-- MOUTH_OPEN fires this frame (lines 349-352). -/
def Detector.mouthFiredAt (d : Detector) (t mar : ℚ) : Bool :=
  let mh := dequeAppend d.mouth_maxlen d.mouth_open_history (d.thresholds.mouthJudge mar)
  mh.all (fun b => b) && decide (mh.length = d.thresholds.mouth_confirm_frames) &&
    availableAt d.thresholds d.last_gesture_time.mouth_open t &&
    !(d.thresholds.mouthJudge mar && d.gesture_confirmed.mouth_open)

/-- The eyebrow baseline-update condition (lines 381-388): gated in and not
currently judged raised. -/
def Detector.ebUpdateAt (d : Detector) (ebp ht : ℚ) : Bool :=
  d.thresholds.eyebrowGate ht &&
    !(d.thresholds.eyebrowJudge d.eyebrow_baseline ebp ht)

/-- EYEBROWS_RAISED fires this frame (lines 398-401). -/
def Detector.eyebrowFiredAt (d : Detector) (t ebp ht : ℚ) : Bool :=
  let ebh := dequeAppend d.eyebrow_maxlen d.eyebrow_raised_history
    (d.thresholds.eyebrowJudge d.eyebrow_baseline ebp ht)
  ebh.all (fun b => b) && decide (ebh.length = d.thresholds.eyebrow_confirm_frames) &&
    availableAt d.thresholds d.last_gesture_time.eyebrows_raised t &&
    !(if d.ebUpdateAt ebp ht then false else d.gesture_confirmed.eyebrows_raised)

/-- HEAD_TILT_LEFT fires this frame (lines 426-429). -/
def Detector.headLeftFiredAt (d : Detector) (t ht : ℚ) : Bool :=
  let lh := dequeAppend d.headL_maxlen d.head_tilt_left_history (d.thresholds.headLeftJudge ht)
  lh.all (fun b => b) && decide (lh.length = d.thresholds.head_tilt_confirm_frames) &&
    availableAt d.thresholds d.last_gesture_time.head_tilt_left t &&
    !(if d.thresholds.headCentered ht then false else d.gesture_confirmed.head_tilt_left)

/-- HEAD_TILT_RIGHT fires this frame (lines 433-436). -/
def Detector.headRightFiredAt (d : Detector) (t ht : ℚ) : Bool :=
  let rh := dequeAppend d.headR_maxlen d.head_tilt_right_history (d.thresholds.headRightJudge ht)
  rh.all (fun b => b) && decide (rh.length = d.thresholds.head_tilt_confirm_frames) &&
    availableAt d.thresholds d.last_gesture_time.head_tilt_right t &&
    !(if d.thresholds.headCentered ht then false else d.gesture_confirmed.head_tilt_right)

/-- The eyebrow baseline after one face frame (lines 387-391). -/
def Detector.ebBaselineNext (d : Detector) (ebp ht : ℚ) : Option ℚ :=
  let bh' :=
    if d.ebUpdateAt ebp ht then dequeAppend 30 d.eyebrow_baseline_history ebp
    else d.eyebrow_baseline_history
  if d.ebUpdateAt ebp ht && decide (10 ≤ bh'.length) then
    some (bh'.sum / (bh'.length : ℚ))
  else d.eyebrow_baseline

/-- A frame is eyebrow-eligible ("gated in") when a face is present and the
head pose passes the eyebrow gate (line 379). -/
def gatedIn (th : Thresholds) : FrameInput → Bool
  | FrameInput.noFace => false
  | FrameInput.face _ _ _ _ ht => th.eyebrowGate ht

/-! Mouth landmark indices, `FaceLandmarks` (lines 122-126). -/

namespace FaceLandmarks

def MOUTH_TOP : ℕ := 13
def MOUTH_BOTTOM : ℕ := 14
def MOUTH_LEFT : ℕ := 78
def MOUTH_RIGHT : ℕ := 308

end FaceLandmarks

/-- `np.linalg.norm` of the difference of two 2D points. -/
noncomputable def pointDist (p q : ℝ × ℝ) : ℝ :=
  Real.sqrt ((p.1 - q.1) ^ 2 + (p.2 - q.2) ^ 2)

/-- `_calculate_eye_aspect_ratio` (lines 183-200): vertical lid distance
over horizontal corner distance, 0 when the horizontal distance is not
positive. -/
noncomputable def calculateEyeAR (landmarks : ℕ → ℝ × ℝ)
    (top bottom left right : ℕ) : ℝ :=
  let vertical := pointDist (landmarks top) (landmarks bottom)
  let horizontal := pointDist (landmarks left) (landmarks right)
  if 0 < horizontal then vertical / horizontal else 0

/-- `_calculate_mouth_aspect_ratio` (lines 202-213), over the fixed mouth
landmark indices. -/
noncomputable def calculateMouthAR (landmarks : ℕ → ℝ × ℝ) : ℝ :=
  let vertical := pointDist (landmarks FaceLandmarks.MOUTH_TOP)
    (landmarks FaceLandmarks.MOUTH_BOTTOM)
  let horizontal := pointDist (landmarks FaceLandmarks.MOUTH_LEFT)
    (landmarks FaceLandmarks.MOUTH_RIGHT)
  if 0 < horizontal then vertical / horizontal else 0


/-! ### Properties of `dequeAppend` -/

lemma dequeAppend_eq {α : Type} (m : ℕ) (xs : List α) (x : α) (hm : 1 ≤ m) :
    dequeAppend m xs x = xs.drop (xs.length + 1 - m) ++ [x] := by
  unfold dequeAppend
  simp only [List.length_append, List.length_singleton]
  split
  · next h =>
    rw [List.drop_append_of_le_length (by omega)]
  · next h =>
    have : xs.length + 1 - m = 0 := by omega
    rw [this, List.drop_zero]

lemma dequeAppend_length {α : Type} (m : ℕ) (xs : List α) (x : α) :
    (dequeAppend m xs x).length = min (xs.length + 1) m := by
  unfold dequeAppend
  simp only [List.length_append, List.length_singleton]
  split <;> [simp only [List.length_drop, List.length_append,
    List.length_singleton]; simp only [List.length_append, List.length_singleton]] <;> omega

lemma dequeAppend_getLast? {α : Type} (m : ℕ) (xs : List α) (x : α) (hm : 1 ≤ m) :
    (dequeAppend m xs x).getLast? = some x := by
  rw [dequeAppend_eq m xs x hm, List.getLast?_concat]

lemma dequeAppend_all {α : Type} (m : ℕ) (xs : List α) (x : α) (p : α → Bool)
    (hm : 1 ≤ m) :
    (dequeAppend m xs x).all p = ((xs.drop (xs.length + 1 - m)).all p && p x) := by
  rw [dequeAppend_eq m xs x hm]
  simp

lemma dequeAppend_all_false (m : ℕ) (xs : List Bool) (hm : 1 ≤ m) :
    (dequeAppend m xs false).all (fun b => b) = false := by
  rw [dequeAppend_all m xs false _ hm]
  simp

lemma dequeAppend_replicate_lt {α : Type} (m k : ℕ) (a : α) (hk : k < m) :
    dequeAppend m (List.replicate k a) a = List.replicate (k + 1) a := by
  rw [dequeAppend_eq m _ a (by omega)]
  rw [List.length_replicate]
  have : k + 1 - m = 0 := by omega
  rw [this, List.drop_zero, ← List.replicate_succ' k a]

lemma dequeAppend_penult (m : ℕ) (xs : List Bool) (x : Bool) (h2 : 2 ≤ m)
    (hxs : xs ≠ []) :
    (dequeAppend m xs x).getD ((dequeAppend m xs x).length - 2) false =
      xs.getLast?.getD false := by
  have hm : 1 ≤ m := by omega
  rw [dequeAppend_eq m xs x hm]
  have hlen : 1 ≤ xs.length := List.length_pos.mpr hxs
  have hdrop : xs.length + 1 - m < xs.length := by omega
  set zs := xs.drop (xs.length + 1 - m) with hzs
  have hz : 1 ≤ zs.length := by
    rw [hzs, List.length_drop]; omega
  have hidx : (zs ++ [x]).length - 2 = zs.length - 1 := by
    simp only [List.length_append, List.length_singleton]; omega
  rw [hidx, List.getD_eq_getElem?_getD, List.getElem?_append_left (by omega),
    ← List.getD_eq_getElem?_getD, List.getD_eq_getElem?_getD,
    ← List.getLast?_eq_getElem?, hzs, List.getLast?_drop, if_neg (by omega)]

/-! ### Per-frame projection lemmas for `detect`

Each lemma isolates one component of a `detect` step.  The `rfl` proofs
certify that the extracted `*FiredAt`/judge definitions agree literally
with the firing logic inside `detect`. -/


lemma count_fireEv (b : Bool) (g g' : GestureType) :
    (fireEv b g).count g' = if b = true ∧ g = g' then 1 else 0 := by
  cases b <;> by_cases h : g = g' <;>
    simp_all [fireEv, List.count_singleton', List.count_nil]

lemma detect_noFace (d : Detector) (t : ℚ) :
    d.detect t FrameInput.noFace = ({}, d, []) := rfl

lemma detect_thresholds (d : Detector) (t : ℚ) (i : FrameInput) :
    (d.detect t i).2.1.thresholds = d.thresholds := by cases i <;> rfl

lemma detect_eye_maxlen (d : Detector) (t : ℚ) (i : FrameInput) :
    (d.detect t i).2.1.eye_maxlen = d.eye_maxlen := by cases i <;> rfl

lemma detect_mouth_maxlen (d : Detector) (t : ℚ) (i : FrameInput) :
    (d.detect t i).2.1.mouth_maxlen = d.mouth_maxlen := by cases i <;> rfl

lemma detect_eyebrow_maxlen (d : Detector) (t : ℚ) (i : FrameInput) :
    (d.detect t i).2.1.eyebrow_maxlen = d.eyebrow_maxlen := by cases i <;> rfl

lemma detect_headL_maxlen (d : Detector) (t : ℚ) (i : FrameInput) :
    (d.detect t i).2.1.headL_maxlen = d.headL_maxlen := by cases i <;> rfl

lemma detect_headR_maxlen (d : Detector) (t : ℚ) (i : FrameInput) :
    (d.detect t i).2.1.headR_maxlen = d.headR_maxlen := by cases i <;> rfl

/-! Eyes and double blink. -/

lemma detect_eye_hist (d : Detector) (t le re mar ebp ht : ℚ) :
    (d.detect t (FrameInput.face le re mar ebp ht)).2.1.eye_closed_history =
      dequeAppend d.eye_maxlen d.eye_closed_history
        (d.thresholds.closedJudge le re) := rfl

lemma detect_blink_count (d : Detector) (t le re mar ebp ht : ℚ) :
    (d.detect t (FrameInput.face le re mar ebp ht)).2.1.blink_count =
      (if d.edgeAt le re then
        (if !d.dbAvailAt t then 0 else if d.dbSeqAt t then 0 else 1)
      else d.blink_count) := rfl

lemma detect_last_blink_time (d : Detector) (t le re mar ebp ht : ℚ) :
    (d.detect t (FrameInput.face le re mar ebp ht)).2.1.last_blink_time =
      (if d.edgeAt le re then
        (if !d.dbAvailAt t then 0 else if d.dbSeqAt t then 0 else t)
      else d.last_blink_time) := rfl

lemma detect_db_lt (d : Detector) (t le re mar ebp ht : ℚ) :
    (d.detect t (FrameInput.face le re mar ebp ht)).2.1.last_gesture_time.double_blink =
      (if d.dbFiredAt t le re then some t
       else d.last_gesture_time.double_blink) := rfl

lemma detect_count_db (d : Detector) (t le re mar ebp ht : ℚ) :
    (d.detect t (FrameInput.face le re mar ebp ht)).2.2.count GestureType.DOUBLE_BLINK =
      (if d.dbFiredAt t le re then 1 else 0) := by
  simp only [Detector.detect, List.count_append, count_fireEv]
  simp [Detector.dbFiredAt, Detector.edgeAt, Detector.dbAvailAt, Detector.dbSeqAt]

/-! Long close. -/

lemma detect_lc_lt (d : Detector) (t le re mar ebp ht : ℚ) :
    (d.detect t (FrameInput.face le re mar ebp ht)).2.1.last_gesture_time.long_close =
      (if d.lcFiredAt t le re then some t
       else d.last_gesture_time.long_close) := rfl

lemma detect_count_lc (d : Detector) (t le re mar ebp ht : ℚ) :
    (d.detect t (FrameInput.face le re mar ebp ht)).2.2.count GestureType.LONG_CLOSE =
      (if d.lcFiredAt t le re then 1 else 0) := by
  simp only [Detector.detect, List.count_append, count_fireEv]
  simp [Detector.lcFiredAt]

/-! Mouth. -/

lemma detect_mouth_hist (d : Detector) (t le re mar ebp ht : ℚ) :
    (d.detect t (FrameInput.face le re mar ebp ht)).2.1.mouth_open_history =
      dequeAppend d.mouth_maxlen d.mouth_open_history
        (d.thresholds.mouthJudge mar) := rfl

lemma detect_mouth_conf (d : Detector) (t le re mar ebp ht : ℚ) :
    (d.detect t (FrameInput.face le re mar ebp ht)).2.1.gesture_confirmed.mouth_open =
      ((d.thresholds.mouthJudge mar && d.gesture_confirmed.mouth_open) ||
        d.mouthFiredAt t mar) := rfl

lemma detect_mouth_lt (d : Detector) (t le re mar ebp ht : ℚ) :
    (d.detect t (FrameInput.face le re mar ebp ht)).2.1.last_gesture_time.mouth_open =
      (if d.mouthFiredAt t mar then some t
       else d.last_gesture_time.mouth_open) := rfl

lemma detect_count_mouth (d : Detector) (t le re mar ebp ht : ℚ) :
    (d.detect t (FrameInput.face le re mar ebp ht)).2.2.count GestureType.MOUTH_OPEN =
      (if d.mouthFiredAt t mar then 1 else 0) := by
  simp only [Detector.detect, List.count_append, count_fireEv]
  simp [Detector.mouthFiredAt]

lemma detect_st_mouth (d : Detector) (t le re mar ebp ht : ℚ) :
    (d.detect t (FrameInput.face le re mar ebp ht)).1.mouth_open =
      d.thresholds.mouthJudge mar := rfl

/-! Eyebrows. -/

lemma detect_eb_hist (d : Detector) (t le re mar ebp ht : ℚ) :
    (d.detect t (FrameInput.face le re mar ebp ht)).2.1.eyebrow_raised_history =
      dequeAppend d.eyebrow_maxlen d.eyebrow_raised_history
        (d.thresholds.eyebrowJudge d.eyebrow_baseline ebp ht) := rfl

lemma detect_eb_conf (d : Detector) (t le re mar ebp ht : ℚ) :
    (d.detect t (FrameInput.face le re mar ebp ht)).2.1.gesture_confirmed.eyebrows_raised =
      ((if d.ebUpdateAt ebp ht then false
        else d.gesture_confirmed.eyebrows_raised) || d.eyebrowFiredAt t ebp ht) := rfl

lemma detect_eb_lt (d : Detector) (t le re mar ebp ht : ℚ) :
    (d.detect t (FrameInput.face le re mar ebp ht)).2.1.last_gesture_time.eyebrows_raised =
      (if d.eyebrowFiredAt t ebp ht then some t
       else d.last_gesture_time.eyebrows_raised) := rfl

lemma detect_count_eb (d : Detector) (t le re mar ebp ht : ℚ) :
    (d.detect t (FrameInput.face le re mar ebp ht)).2.2.count GestureType.EYEBROWS_RAISED =
      (if d.eyebrowFiredAt t ebp ht then 1 else 0) := by
  simp only [Detector.detect, List.count_append, count_fireEv]
  simp [Detector.eyebrowFiredAt, Detector.ebUpdateAt]

lemma detect_st_eyebrows (d : Detector) (t le re mar ebp ht : ℚ) :
    (d.detect t (FrameInput.face le re mar ebp ht)).1.eyebrows_raised =
      d.thresholds.eyebrowJudge d.eyebrow_baseline ebp ht := rfl

lemma detect_eb_bh (d : Detector) (t le re mar ebp ht : ℚ) :
    (d.detect t (FrameInput.face le re mar ebp ht)).2.1.eyebrow_baseline_history =
      (if d.ebUpdateAt ebp ht then dequeAppend 30 d.eyebrow_baseline_history ebp
       else d.eyebrow_baseline_history) := rfl

lemma detect_eb_baseline (d : Detector) (t le re mar ebp ht : ℚ) :
    (d.detect t (FrameInput.face le re mar ebp ht)).2.1.eyebrow_baseline =
      d.ebBaselineNext ebp ht := rfl

/-! Head tilt. -/

lemma detect_st_center (d : Detector) (t le re mar ebp ht : ℚ) :
    (d.detect t (FrameInput.face le re mar ebp ht)).1.head_tilt_center =
      d.thresholds.headCentered ht := rfl

lemma detect_st_left (d : Detector) (t le re mar ebp ht : ℚ) :
    (d.detect t (FrameInput.face le re mar ebp ht)).1.head_tilt_left =
      d.thresholds.headLeftJudge ht := rfl

lemma detect_st_right (d : Detector) (t le re mar ebp ht : ℚ) :
    (d.detect t (FrameInput.face le re mar ebp ht)).1.head_tilt_right =
      d.thresholds.headRightJudge ht := rfl

lemma detect_hl_hist (d : Detector) (t le re mar ebp ht : ℚ) :
    (d.detect t (FrameInput.face le re mar ebp ht)).2.1.head_tilt_left_history =
      dequeAppend d.headL_maxlen d.head_tilt_left_history
        (d.thresholds.headLeftJudge ht) := rfl

lemma detect_hl_conf (d : Detector) (t le re mar ebp ht : ℚ) :
    (d.detect t (FrameInput.face le re mar ebp ht)).2.1.gesture_confirmed.head_tilt_left =
      ((if d.thresholds.headCentered ht then false
        else d.gesture_confirmed.head_tilt_left) || d.headLeftFiredAt t ht) := rfl

lemma detect_hl_lt (d : Detector) (t le re mar ebp ht : ℚ) :
    (d.detect t (FrameInput.face le re mar ebp ht)).2.1.last_gesture_time.head_tilt_left =
      (if d.headLeftFiredAt t ht then some t
       else d.last_gesture_time.head_tilt_left) := rfl

lemma detect_count_hl (d : Detector) (t le re mar ebp ht : ℚ) :
    (d.detect t (FrameInput.face le re mar ebp ht)).2.2.count GestureType.HEAD_TILT_LEFT =
      (if d.headLeftFiredAt t ht then 1 else 0) := by
  simp only [Detector.detect, List.count_append, count_fireEv]
  simp [Detector.headLeftFiredAt]

lemma detect_hr_hist (d : Detector) (t le re mar ebp ht : ℚ) :
    (d.detect t (FrameInput.face le re mar ebp ht)).2.1.head_tilt_right_history =
      dequeAppend d.headR_maxlen d.head_tilt_right_history
        (d.thresholds.headRightJudge ht) := rfl

lemma detect_hr_conf (d : Detector) (t le re mar ebp ht : ℚ) :
    (d.detect t (FrameInput.face le re mar ebp ht)).2.1.gesture_confirmed.head_tilt_right =
      ((if d.thresholds.headCentered ht then false
        else d.gesture_confirmed.head_tilt_right) || d.headRightFiredAt t ht) := rfl

lemma detect_hr_lt (d : Detector) (t le re mar ebp ht : ℚ) :
    (d.detect t (FrameInput.face le re mar ebp ht)).2.1.last_gesture_time.head_tilt_right =
      (if d.headRightFiredAt t ht then some t
       else d.last_gesture_time.head_tilt_right) := rfl

lemma detect_count_hr (d : Detector) (t le re mar ebp ht : ℚ) :
    (d.detect t (FrameInput.face le re mar ebp ht)).2.2.count GestureType.HEAD_TILT_RIGHT =
      (if d.headRightFiredAt t ht then 1 else 0) := by
  simp only [Detector.detect, List.count_append, count_fireEv]
  simp [Detector.headRightFiredAt]

/-! ### Run-level machinery -/

lemma runFr_nil (d : Detector) : runFr d [] = (d, []) := rfl

lemma runFr_cons (d : Detector) (f : Fr) (fs : List Fr) :
    runFr d (f :: fs) =
      ((runFr (d.detect f.t (FrameInput.face f.le f.re f.mar f.ebp f.ht)).2.1 fs).1,
        ((d.detect f.t (FrameInput.face f.le f.re f.mar f.ebp f.ht)).1,
         (d.detect f.t (FrameInput.face f.le f.re f.mar f.ebp f.ht)).2.2) ::
          (runFr (d.detect f.t (FrameInput.face f.le f.re f.mar f.ebp f.ht)).2.1 fs).2) :=
  rfl

lemma outCounts_nil (g : GestureType) : outCounts g [] = [] := rfl

lemma outCounts_cons (g : GestureType) (p : GestureState × List GestureType)
    (out : List (GestureState × List GestureType)) :
    outCounts g (p :: out) = p.2.count g :: outCounts g out := rfl

lemma totalCount_nil (g : GestureType) : totalCount g [] = 0 := rfl

lemma totalCount_cons (g : GestureType) (p : GestureState × List GestureType)
    (out : List (GestureState × List GestureType)) :
    totalCount g (p :: out) = p.2.count g + totalCount g out := by
  simp [totalCount, outCounts_cons]

lemma runDetect_append (d : Detector) (xs ys : List (ℚ × FrameInput)) :
    runDetect d (xs ++ ys) =
      ((runDetect (runDetect d xs).1 ys).1,
        (runDetect d xs).2 ++ (runDetect (runDetect d xs).1 ys).2) := by
  induction xs generalizing d with
  | nil => simp [runDetect]
  | cons x xs ih => simp [runDetect, ih]

/-! ### Mouth channel: run lemmas

The MOUTH_OPEN channel held continuously "open": while the confirm latch is
set no emission occurs; from a clean channel the run emits exactly once as
soon as the window has filled. -/

lemma mouth_run_latched (fs : List Fr) : ∀ d : Detector,
    d.gesture_confirmed.mouth_open = true →
    (∀ f ∈ fs, d.thresholds.mouthJudge f.mar = true) →
    outCounts GestureType.MOUTH_OPEN (runFr d fs).2 = List.replicate fs.length 0 ∧
    (runFr d fs).1.gesture_confirmed.mouth_open = true := by
  induction fs with
  | nil => intro d h1 _; simp [runFr_nil, outCounts_nil, h1]
  | cons f fs ih =>
    intro d h1 h2
    have hmj : d.thresholds.mouthJudge f.mar = true := h2 f (by simp)
    have hfired : d.mouthFiredAt f.t f.mar = false := by
      unfold Detector.mouthFiredAt; simp [hmj, h1]
    have hconf : (d.detect f.t
        (FrameInput.face f.le f.re f.mar f.ebp f.ht)).2.1.gesture_confirmed.mouth_open
        = true := by
      rw [detect_mouth_conf]; simp [hmj, h1]
    have hrest := ih _ hconf (by
      intro g hg; rw [detect_thresholds]; exact h2 g (List.mem_cons_of_mem _ hg))
    rw [runFr_cons]
    refine ⟨?_, hrest.2⟩
    rw [outCounts_cons, detect_count_mouth, hfired, List.length_cons,
      List.replicate_succ, hrest.1]
    simp

lemma mouth_run_clean (fs : List Fr) : ∀ (d : Detector) (k : ℕ),
    d.gesture_confirmed.mouth_open = false →
    d.last_gesture_time.mouth_open = none →
    d.mouth_open_history = List.replicate k true →
    d.mouth_maxlen = d.thresholds.mouth_confirm_frames →
    k < d.thresholds.mouth_confirm_frames →
    (∀ f ∈ fs, d.thresholds.mouthJudge f.mar = true) →
    totalCount GestureType.MOUTH_OPEN (runFr d fs).2 =
      if d.thresholds.mouth_confirm_frames ≤ k + fs.length then 1 else 0 := by
  induction fs with
  | nil =>
    intro d k _ _ _ _ hk _
    rw [runFr_nil]
    show 0 = if d.thresholds.mouth_confirm_frames ≤ k + List.length [] then 1 else 0
    rw [if_neg (by simp only [List.length_nil, Nat.add_zero]; omega)]
  | cons f fs ih =>
    intro d k h1 h2 h3 h4 hk h5
    have hmj : d.thresholds.mouthJudge f.mar = true := h5 f (by simp)
    have hmh : dequeAppend d.mouth_maxlen d.mouth_open_history
        (d.thresholds.mouthJudge f.mar) = List.replicate (k + 1) true := by
      rw [hmj, h3, h4, dequeAppend_replicate_lt _ _ _ hk]
    have hfired : d.mouthFiredAt f.t f.mar =
        decide (k + 1 = d.thresholds.mouth_confirm_frames) := by
      unfold Detector.mouthFiredAt
      rw [hmh]
      simp [h2, availableAt, h1, hmj, List.all_eq_true]
    have hth := detect_thresholds d f.t (FrameInput.face f.le f.re f.mar f.ebp f.ht)
    rw [runFr_cons, totalCount_cons, detect_count_mouth, hfired]
    by_cases hfill : k + 1 = d.thresholds.mouth_confirm_frames
    · -- the window fills this frame: MOUTH_OPEN fires, the latch blocks the rest
      have hconf : (d.detect f.t
          (FrameInput.face f.le f.re f.mar f.ebp f.ht)).2.1.gesture_confirmed.mouth_open
          = true := by
        rw [detect_mouth_conf, hfired]
        simp [hfill]
      have hrest := mouth_run_latched fs _ hconf (by
        intro g hg; rw [hth]; exact h5 g (List.mem_cons_of_mem _ hg))
      have hz : totalCount GestureType.MOUTH_OPEN
          (runFr (d.detect f.t (FrameInput.face f.le f.re f.mar f.ebp f.ht)).2.1 fs).2
          = 0 := by
        rw [totalCount, hrest.1]; simp
      rw [hz, if_pos (by simp [hfill]),
        if_pos (by simp only [List.length_cons]; omega)]
    · -- window not yet full: nothing fires, recurse with one more true sample
      have hconf : (d.detect f.t
          (FrameInput.face f.le f.re f.mar f.ebp f.ht)).2.1.gesture_confirmed.mouth_open
          = false := by
        rw [detect_mouth_conf, hfired]
        simp [h1, hfill]
      have hlt : (d.detect f.t
          (FrameInput.face f.le f.re f.mar f.ebp f.ht)).2.1.last_gesture_time.mouth_open
          = none := by
        rw [detect_mouth_lt, hfired]
        simp [hfill, h2]
      have hhist : (d.detect f.t
          (FrameInput.face f.le f.re f.mar f.ebp f.ht)).2.1.mouth_open_history
          = List.replicate (k + 1) true := by
        rw [detect_mouth_hist, hmh]
      have hml : (d.detect f.t
          (FrameInput.face f.le f.re f.mar f.ebp f.ht)).2.1.mouth_maxlen
          = (d.detect f.t
          (FrameInput.face f.le f.re f.mar f.ebp f.ht)).2.1.thresholds.mouth_confirm_frames := by
        rw [detect_mouth_maxlen, hth, h4]
      have hrest := ih _ (k + 1) hconf hlt hhist hml
        (by rw [hth]; omega)
        (by intro g hg; rw [hth]; exact h5 g (List.mem_cons_of_mem _ hg))
      rw [hrest, hth, if_neg (by simp [hfill]), Nat.zero_add]
      by_cases hcf : d.thresholds.mouth_confirm_frames ≤ k + 1 + fs.length
      · rw [if_pos hcf, if_pos (by simp only [List.length_cons]; omega)]
      · rw [if_neg hcf, if_neg (by simp only [List.length_cons]; omega)]

lemma mouth_neutral_clear (d : Detector) (t le re mar ebp ht : ℚ)
    (hml : 1 ≤ d.mouth_maxlen)
    (hmj : d.thresholds.mouthJudge mar = false) :
    (d.detect t (FrameInput.face le re mar ebp ht)).2.1.gesture_confirmed.mouth_open
      = false := by
  rw [detect_mouth_conf, hmj]
  have hfired : d.mouthFiredAt t mar = false := by
    simp only [Detector.mouthFiredAt, hmj]
    rw [dequeAppend_all_false _ _ hml]
    simp
  simp [hfired]

/-! ### Eyebrow channel: run lemmas

While the eyebrows are continuously judged raised, the baseline is frozen
(the running mean only accumulates non-raised samples), the latch blocks
re-emission, and from a clean channel the run emits exactly once. -/

lemma eyebrow_run_latched (fs : List Fr) : ∀ (d : Detector) (b : ℚ),
    d.gesture_confirmed.eyebrows_raised = true →
    d.eyebrow_baseline = some b →
    (∀ f ∈ fs, d.thresholds.eyebrowJudge (some b) f.ebp f.ht = true) →
    outCounts GestureType.EYEBROWS_RAISED (runFr d fs).2 = List.replicate fs.length 0 ∧
    (runFr d fs).1.gesture_confirmed.eyebrows_raised = true ∧
    (runFr d fs).1.eyebrow_baseline = some b := by
  induction fs with
  | nil => intro d b h1 hb _; simp [runFr_nil, outCounts_nil, h1, hb]
  | cons f fs ih =>
    intro d b h1 hb h2
    have hj : d.thresholds.eyebrowJudge d.eyebrow_baseline f.ebp f.ht = true := by
      rw [hb]; exact h2 f (by simp)
    have hupd : d.ebUpdateAt f.ebp f.ht = false := by
      unfold Detector.ebUpdateAt; simp [hj]
    have hfired : d.eyebrowFiredAt f.t f.ebp f.ht = false := by
      simp only [Detector.eyebrowFiredAt, hupd, h1]
      simp
    have hconf : (d.detect f.t
        (FrameInput.face f.le f.re f.mar f.ebp f.ht)).2.1.gesture_confirmed.eyebrows_raised
        = true := by
      rw [detect_eb_conf, hupd, hfired]; simp [h1]
    have hbase : (d.detect f.t
        (FrameInput.face f.le f.re f.mar f.ebp f.ht)).2.1.eyebrow_baseline = some b := by
      rw [detect_eb_baseline]
      simp only [Detector.ebBaselineNext, hupd]
      simp [hb]
    have hrest := ih _ b hconf hbase (by
      intro g hg; rw [detect_thresholds]; exact h2 g (List.mem_cons_of_mem _ hg))
    rw [runFr_cons]
    refine ⟨?_, hrest.2.1, hrest.2.2⟩
    rw [outCounts_cons, detect_count_eb, hfired, List.length_cons,
      List.replicate_succ, hrest.1]
    simp

lemma eyebrow_run_clean (fs : List Fr) : ∀ (d : Detector) (b : ℚ) (k : ℕ),
    d.gesture_confirmed.eyebrows_raised = false →
    d.last_gesture_time.eyebrows_raised = none →
    d.eyebrow_raised_history = List.replicate k true →
    d.eyebrow_maxlen = d.thresholds.eyebrow_confirm_frames →
    k < d.thresholds.eyebrow_confirm_frames →
    d.eyebrow_baseline = some b →
    (∀ f ∈ fs, d.thresholds.eyebrowJudge (some b) f.ebp f.ht = true) →
    totalCount GestureType.EYEBROWS_RAISED (runFr d fs).2 =
      if d.thresholds.eyebrow_confirm_frames ≤ k + fs.length then 1 else 0 := by
  induction fs with
  | nil =>
    intro d b k _ _ _ _ hk _ _
    rw [runFr_nil]
    show 0 = if d.thresholds.eyebrow_confirm_frames ≤ k + List.length [] then 1 else 0
    rw [if_neg (by simp only [List.length_nil, Nat.add_zero]; omega)]
  | cons f fs ih =>
    intro d b k h1 h2 h3 h4 hk hb h5
    have hj : d.thresholds.eyebrowJudge d.eyebrow_baseline f.ebp f.ht = true := by
      rw [hb]; exact h5 f (by simp)
    have hupd : d.ebUpdateAt f.ebp f.ht = false := by
      unfold Detector.ebUpdateAt; simp [hj]
    have hbh : dequeAppend d.eyebrow_maxlen d.eyebrow_raised_history
        (d.thresholds.eyebrowJudge d.eyebrow_baseline f.ebp f.ht) =
        List.replicate (k + 1) true := by
      rw [hj, h3, h4, dequeAppend_replicate_lt _ _ _ hk]
    have hfired : d.eyebrowFiredAt f.t f.ebp f.ht =
        decide (k + 1 = d.thresholds.eyebrow_confirm_frames) := by
      simp only [Detector.eyebrowFiredAt, hupd, hbh]
      simp [h2, availableAt, h1, List.all_eq_true]
    have hbase : (d.detect f.t
        (FrameInput.face f.le f.re f.mar f.ebp f.ht)).2.1.eyebrow_baseline = some b := by
      rw [detect_eb_baseline]
      simp only [Detector.ebBaselineNext, hupd]
      simp [hb]
    have hth := detect_thresholds d f.t (FrameInput.face f.le f.re f.mar f.ebp f.ht)
    rw [runFr_cons, totalCount_cons, detect_count_eb, hfired]
    by_cases hfill : k + 1 = d.thresholds.eyebrow_confirm_frames
    · have hconf : (d.detect f.t
          (FrameInput.face f.le f.re f.mar f.ebp f.ht)).2.1.gesture_confirmed.eyebrows_raised
          = true := by
        rw [detect_eb_conf, hfired]
        simp [hfill]
      have hrest := eyebrow_run_latched fs _ b hconf hbase (by
        intro g hg; rw [hth]; exact h5 g (List.mem_cons_of_mem _ hg))
      have hz : totalCount GestureType.EYEBROWS_RAISED
          (runFr (d.detect f.t (FrameInput.face f.le f.re f.mar f.ebp f.ht)).2.1 fs).2
          = 0 := by
        rw [totalCount, hrest.1]; simp
      rw [hz, if_pos (by simp [hfill]),
        if_pos (by simp only [List.length_cons]; omega)]
    · have hconf : (d.detect f.t
          (FrameInput.face f.le f.re f.mar f.ebp f.ht)).2.1.gesture_confirmed.eyebrows_raised
          = false := by
        rw [detect_eb_conf, hupd, hfired]
        simp [h1, hfill]
      have hlt : (d.detect f.t
          (FrameInput.face f.le f.re f.mar f.ebp f.ht)).2.1.last_gesture_time.eyebrows_raised
          = none := by
        rw [detect_eb_lt, hfired]
        simp [hfill, h2]
      have hhist : (d.detect f.t
          (FrameInput.face f.le f.re f.mar f.ebp f.ht)).2.1.eyebrow_raised_history
          = List.replicate (k + 1) true := by
        rw [detect_eb_hist, hbh]
      have hml : (d.detect f.t
          (FrameInput.face f.le f.re f.mar f.ebp f.ht)).2.1.eyebrow_maxlen
          = (d.detect f.t
          (FrameInput.face f.le f.re f.mar f.ebp f.ht)).2.1.thresholds.eyebrow_confirm_frames := by
        rw [detect_eyebrow_maxlen, hth, h4]
      have hrest := ih _ b (k + 1) hconf hlt hhist hml
        (by rw [hth]; omega) hbase
        (by intro g hg; rw [hth]; exact h5 g (List.mem_cons_of_mem _ hg))
      rw [hrest, hth, if_neg (by simp [hfill]), Nat.zero_add]
      by_cases hcf : d.thresholds.eyebrow_confirm_frames ≤ k + 1 + fs.length
      · rw [if_pos hcf, if_pos (by simp only [List.length_cons]; omega)]
      · rw [if_neg hcf, if_neg (by simp only [List.length_cons]; omega)]

lemma eyebrow_neutral_clear (d : Detector) (t le re mar ebp ht : ℚ)
    (hml : 1 ≤ d.eyebrow_maxlen)
    (hgate : d.thresholds.eyebrowGate ht = true)
    (hj : d.thresholds.eyebrowJudge d.eyebrow_baseline ebp ht = false) :
    (d.detect t (FrameInput.face le re mar ebp ht)).2.1.gesture_confirmed.eyebrows_raised
      = false := by
  have hupd : d.ebUpdateAt ebp ht = true := by
    unfold Detector.ebUpdateAt; simp [hgate, hj]
  rw [detect_eb_conf, hupd]
  have hfired : d.eyebrowFiredAt t ebp ht = false := by
    simp only [Detector.eyebrowFiredAt, hj]
    rw [dequeAppend_all_false _ _ hml]
    simp
  simp [hfired]

/-! ### Head-tilt channels: run lemmas -/

lemma headLeftJudge_not_centered (th : Thresholds) (ht : ℚ)
    (h : th.headLeftJudge ht = true) : th.headCentered ht = false := by
  unfold Thresholds.headLeftJudge at h
  simp only [Bool.and_eq_true, Bool.not_eq_true'] at h
  exact h.1

lemma headRightJudge_not_centered (th : Thresholds) (ht : ℚ)
    (h : th.headRightJudge ht = true) : th.headCentered ht = false := by
  unfold Thresholds.headRightJudge at h
  simp only [Bool.and_eq_true, Bool.not_eq_true'] at h
  exact h.1

lemma headL_run_latched (fs : List Fr) : ∀ d : Detector,
    d.gesture_confirmed.head_tilt_left = true →
    (∀ f ∈ fs, d.thresholds.headLeftJudge f.ht = true) →
    outCounts GestureType.HEAD_TILT_LEFT (runFr d fs).2 = List.replicate fs.length 0 ∧
    (runFr d fs).1.gesture_confirmed.head_tilt_left = true := by
  induction fs with
  | nil => intro d h1 _; simp [runFr_nil, outCounts_nil, h1]
  | cons f fs ih =>
    intro d h1 h2
    have hj : d.thresholds.headLeftJudge f.ht = true := h2 f (by simp)
    have hc : d.thresholds.headCentered f.ht = false :=
      headLeftJudge_not_centered _ _ hj
    have hfired : d.headLeftFiredAt f.t f.ht = false := by
      simp only [Detector.headLeftFiredAt, hc, h1]
      simp
    have hconf : (d.detect f.t
        (FrameInput.face f.le f.re f.mar f.ebp f.ht)).2.1.gesture_confirmed.head_tilt_left
        = true := by
      rw [detect_hl_conf, hc, hfired]; simp [h1]
    have hrest := ih _ hconf (by
      intro g hg; rw [detect_thresholds]; exact h2 g (List.mem_cons_of_mem _ hg))
    rw [runFr_cons]
    refine ⟨?_, hrest.2⟩
    rw [outCounts_cons, detect_count_hl, hfired, List.length_cons,
      List.replicate_succ, hrest.1]
    simp

lemma headL_run_clean (fs : List Fr) : ∀ (d : Detector) (k : ℕ),
    d.gesture_confirmed.head_tilt_left = false →
    d.last_gesture_time.head_tilt_left = none →
    d.head_tilt_left_history = List.replicate k true →
    d.headL_maxlen = d.thresholds.head_tilt_confirm_frames →
    k < d.thresholds.head_tilt_confirm_frames →
    (∀ f ∈ fs, d.thresholds.headLeftJudge f.ht = true) →
    totalCount GestureType.HEAD_TILT_LEFT (runFr d fs).2 =
      if d.thresholds.head_tilt_confirm_frames ≤ k + fs.length then 1 else 0 := by
  induction fs with
  | nil =>
    intro d k _ _ _ _ hk _
    rw [runFr_nil]
    show 0 = if d.thresholds.head_tilt_confirm_frames ≤ k + List.length [] then 1 else 0
    rw [if_neg (by simp only [List.length_nil, Nat.add_zero]; omega)]
  | cons f fs ih =>
    intro d k h1 h2 h3 h4 hk h5
    have hj : d.thresholds.headLeftJudge f.ht = true := h5 f (by simp)
    have hc : d.thresholds.headCentered f.ht = false :=
      headLeftJudge_not_centered _ _ hj
    have hlh : dequeAppend d.headL_maxlen d.head_tilt_left_history
        (d.thresholds.headLeftJudge f.ht) = List.replicate (k + 1) true := by
      rw [hj, h3, h4, dequeAppend_replicate_lt _ _ _ hk]
    have hfired : d.headLeftFiredAt f.t f.ht =
        decide (k + 1 = d.thresholds.head_tilt_confirm_frames) := by
      simp only [Detector.headLeftFiredAt, hc, hlh]
      simp [h2, availableAt, h1, List.all_eq_true]
    have hth := detect_thresholds d f.t (FrameInput.face f.le f.re f.mar f.ebp f.ht)
    rw [runFr_cons, totalCount_cons, detect_count_hl, hfired]
    by_cases hfill : k + 1 = d.thresholds.head_tilt_confirm_frames
    · have hconf : (d.detect f.t
          (FrameInput.face f.le f.re f.mar f.ebp f.ht)).2.1.gesture_confirmed.head_tilt_left
          = true := by
        rw [detect_hl_conf, hfired]
        simp [hfill]
      have hrest := headL_run_latched fs _ hconf (by
        intro g hg; rw [hth]; exact h5 g (List.mem_cons_of_mem _ hg))
      have hz : totalCount GestureType.HEAD_TILT_LEFT
          (runFr (d.detect f.t (FrameInput.face f.le f.re f.mar f.ebp f.ht)).2.1 fs).2
          = 0 := by
        rw [totalCount, hrest.1]; simp
      rw [hz, if_pos (by simp [hfill]),
        if_pos (by simp only [List.length_cons]; omega)]
    · have hconf : (d.detect f.t
          (FrameInput.face f.le f.re f.mar f.ebp f.ht)).2.1.gesture_confirmed.head_tilt_left
          = false := by
        rw [detect_hl_conf, hc, hfired]
        simp [h1, hfill]
      have hlt : (d.detect f.t
          (FrameInput.face f.le f.re f.mar f.ebp f.ht)).2.1.last_gesture_time.head_tilt_left
          = none := by
        rw [detect_hl_lt, hfired]
        simp [hfill, h2]
      have hhist : (d.detect f.t
          (FrameInput.face f.le f.re f.mar f.ebp f.ht)).2.1.head_tilt_left_history
          = List.replicate (k + 1) true := by
        rw [detect_hl_hist, hlh]
      have hml : (d.detect f.t
          (FrameInput.face f.le f.re f.mar f.ebp f.ht)).2.1.headL_maxlen
          = (d.detect f.t
          (FrameInput.face f.le f.re f.mar f.ebp f.ht)).2.1.thresholds.head_tilt_confirm_frames := by
        rw [detect_headL_maxlen, hth, h4]
      have hrest := ih _ (k + 1) hconf hlt hhist hml
        (by rw [hth]; omega)
        (by intro g hg; rw [hth]; exact h5 g (List.mem_cons_of_mem _ hg))
      rw [hrest, hth, if_neg (by simp [hfill]), Nat.zero_add]
      by_cases hcf : d.thresholds.head_tilt_confirm_frames ≤ k + 1 + fs.length
      · rw [if_pos hcf, if_pos (by simp only [List.length_cons]; omega)]
      · rw [if_neg hcf, if_neg (by simp only [List.length_cons]; omega)]

lemma headL_neutral_clear (d : Detector) (t le re mar ebp ht : ℚ)
    (hml : 1 ≤ d.headL_maxlen)
    (hc : d.thresholds.headCentered ht = true) :
    (d.detect t (FrameInput.face le re mar ebp ht)).2.1.gesture_confirmed.head_tilt_left
      = false := by
  rw [detect_hl_conf, hc]
  have hj : d.thresholds.headLeftJudge ht = false := by
    unfold Thresholds.headLeftJudge; simp [hc]
  have hfired : d.headLeftFiredAt t ht = false := by
    simp only [Detector.headLeftFiredAt, hj]
    rw [dequeAppend_all_false _ _ hml]
    simp
  simp [hfired]

lemma headR_run_latched (fs : List Fr) : ∀ d : Detector,
    d.gesture_confirmed.head_tilt_right = true →
    (∀ f ∈ fs, d.thresholds.headRightJudge f.ht = true) →
    outCounts GestureType.HEAD_TILT_RIGHT (runFr d fs).2 = List.replicate fs.length 0 ∧
    (runFr d fs).1.gesture_confirmed.head_tilt_right = true := by
  induction fs with
  | nil => intro d h1 _; simp [runFr_nil, outCounts_nil, h1]
  | cons f fs ih =>
    intro d h1 h2
    have hj : d.thresholds.headRightJudge f.ht = true := h2 f (by simp)
    have hc : d.thresholds.headCentered f.ht = false :=
      headRightJudge_not_centered _ _ hj
    have hfired : d.headRightFiredAt f.t f.ht = false := by
      simp only [Detector.headRightFiredAt, hc, h1]
      simp
    have hconf : (d.detect f.t
        (FrameInput.face f.le f.re f.mar f.ebp f.ht)).2.1.gesture_confirmed.head_tilt_right
        = true := by
      rw [detect_hr_conf, hc, hfired]; simp [h1]
    have hrest := ih _ hconf (by
      intro g hg; rw [detect_thresholds]; exact h2 g (List.mem_cons_of_mem _ hg))
    rw [runFr_cons]
    refine ⟨?_, hrest.2⟩
    rw [outCounts_cons, detect_count_hr, hfired, List.length_cons,
      List.replicate_succ, hrest.1]
    simp

lemma headR_run_clean (fs : List Fr) : ∀ (d : Detector) (k : ℕ),
    d.gesture_confirmed.head_tilt_right = false →
    d.last_gesture_time.head_tilt_right = none →
    d.head_tilt_right_history = List.replicate k true →
    d.headR_maxlen = d.thresholds.head_tilt_confirm_frames →
    k < d.thresholds.head_tilt_confirm_frames →
    (∀ f ∈ fs, d.thresholds.headRightJudge f.ht = true) →
    totalCount GestureType.HEAD_TILT_RIGHT (runFr d fs).2 =
      if d.thresholds.head_tilt_confirm_frames ≤ k + fs.length then 1 else 0 := by
  induction fs with
  | nil =>
    intro d k _ _ _ _ hk _
    rw [runFr_nil]
    show 0 = if d.thresholds.head_tilt_confirm_frames ≤ k + List.length [] then 1 else 0
    rw [if_neg (by simp only [List.length_nil, Nat.add_zero]; omega)]
  | cons f fs ih =>
    intro d k h1 h2 h3 h4 hk h5
    have hj : d.thresholds.headRightJudge f.ht = true := h5 f (by simp)
    have hc : d.thresholds.headCentered f.ht = false :=
      headRightJudge_not_centered _ _ hj
    have hrh : dequeAppend d.headR_maxlen d.head_tilt_right_history
        (d.thresholds.headRightJudge f.ht) = List.replicate (k + 1) true := by
      rw [hj, h3, h4, dequeAppend_replicate_lt _ _ _ hk]
    have hfired : d.headRightFiredAt f.t f.ht =
        decide (k + 1 = d.thresholds.head_tilt_confirm_frames) := by
      simp only [Detector.headRightFiredAt, hc, hrh]
      simp [h2, availableAt, h1, List.all_eq_true]
    have hth := detect_thresholds d f.t (FrameInput.face f.le f.re f.mar f.ebp f.ht)
    rw [runFr_cons, totalCount_cons, detect_count_hr, hfired]
    by_cases hfill : k + 1 = d.thresholds.head_tilt_confirm_frames
    · have hconf : (d.detect f.t
          (FrameInput.face f.le f.re f.mar f.ebp f.ht)).2.1.gesture_confirmed.head_tilt_right
          = true := by
        rw [detect_hr_conf, hfired]
        simp [hfill]
      have hrest := headR_run_latched fs _ hconf (by
        intro g hg; rw [hth]; exact h5 g (List.mem_cons_of_mem _ hg))
      have hz : totalCount GestureType.HEAD_TILT_RIGHT
          (runFr (d.detect f.t (FrameInput.face f.le f.re f.mar f.ebp f.ht)).2.1 fs).2
          = 0 := by
        rw [totalCount, hrest.1]; simp
      rw [hz, if_pos (by simp [hfill]),
        if_pos (by simp only [List.length_cons]; omega)]
    · have hconf : (d.detect f.t
          (FrameInput.face f.le f.re f.mar f.ebp f.ht)).2.1.gesture_confirmed.head_tilt_right
          = false := by
        rw [detect_hr_conf, hc, hfired]
        simp [h1, hfill]
      have hlt : (d.detect f.t
          (FrameInput.face f.le f.re f.mar f.ebp f.ht)).2.1.last_gesture_time.head_tilt_right
          = none := by
        rw [detect_hr_lt, hfired]
        simp [hfill, h2]
      have hhist : (d.detect f.t
          (FrameInput.face f.le f.re f.mar f.ebp f.ht)).2.1.head_tilt_right_history
          = List.replicate (k + 1) true := by
        rw [detect_hr_hist, hrh]
      have hml : (d.detect f.t
          (FrameInput.face f.le f.re f.mar f.ebp f.ht)).2.1.headR_maxlen
          = (d.detect f.t
          (FrameInput.face f.le f.re f.mar f.ebp f.ht)).2.1.thresholds.head_tilt_confirm_frames := by
        rw [detect_headR_maxlen, hth, h4]
      have hrest := ih _ (k + 1) hconf hlt hhist hml
        (by rw [hth]; omega)
        (by intro g hg; rw [hth]; exact h5 g (List.mem_cons_of_mem _ hg))
      rw [hrest, hth, if_neg (by simp [hfill]), Nat.zero_add]
      by_cases hcf : d.thresholds.head_tilt_confirm_frames ≤ k + 1 + fs.length
      · rw [if_pos hcf, if_pos (by simp only [List.length_cons]; omega)]
      · rw [if_neg hcf, if_neg (by simp only [List.length_cons]; omega)]

lemma headR_neutral_clear (d : Detector) (t le re mar ebp ht : ℚ)
    (hml : 1 ≤ d.headR_maxlen)
    (hc : d.thresholds.headCentered ht = true) :
    (d.detect t (FrameInput.face le re mar ebp ht)).2.1.gesture_confirmed.head_tilt_right
      = false := by
  rw [detect_hr_conf, hc]
  have hj : d.thresholds.headRightJudge ht = false := by
    unfold Thresholds.headRightJudge; simp [hc]
  have hfired : d.headRightFiredAt t ht = false := by
    simp only [Detector.headRightFiredAt, hj]
    rw [dequeAppend_all_false _ _ hml]
    simp
  simp [hfired]

/-! ### Claim theorems -/

/-- C1: every level-triggered channel (mouth-open, eyebrows-raised,
head-tilt-left, head-tilt-right) whose underlying condition is held
continuously true for arbitrarily many frames beyond its confirm-window
length emits its gesture event exactly once during the continuous-true
episode (three statements per channel: a fresh-channel run of any length
at least the confirm window emits exactly once in total; while the confirm
latch is set, a condition-true run of any length emits nothing and keeps
the latch; and observing the channel's neutral condition clears the latch).
For the eyebrow channel the episode starts from an active baseline `b`,
since the raised condition is unsatisfiable before warm-up. -/
theorem c1_level_triggered_exactly_once :
    (∀ (th : Thresholds) (fs : List Fr),
      1 ≤ th.mouth_confirm_frames →
      (∀ f ∈ fs, th.mouthJudge f.mar = true) →
      th.mouth_confirm_frames ≤ fs.length →
      totalCount GestureType.MOUTH_OPEN (runFr (Detector.init th) fs).2 = 1) ∧
    (∀ (d : Detector) (fs : List Fr),
      d.gesture_confirmed.mouth_open = true →
      (∀ f ∈ fs, d.thresholds.mouthJudge f.mar = true) →
      totalCount GestureType.MOUTH_OPEN (runFr d fs).2 = 0) ∧
    (∀ (d : Detector) (t le re mar ebp ht : ℚ),
      1 ≤ d.mouth_maxlen →
      d.thresholds.mouthJudge mar = false →
      (d.detect t (FrameInput.face le re mar ebp ht)).2.1.gesture_confirmed.mouth_open
        = false) ∧
    (∀ (th : Thresholds) (b : ℚ) (fs : List Fr),
      1 ≤ th.eyebrow_confirm_frames →
      (∀ f ∈ fs, th.eyebrowJudge (some b) f.ebp f.ht = true) →
      th.eyebrow_confirm_frames ≤ fs.length →
      totalCount GestureType.EYEBROWS_RAISED
        (runFr { Detector.init th with eyebrow_baseline := some b } fs).2 = 1) ∧
    (∀ (d : Detector) (b : ℚ) (fs : List Fr),
      d.gesture_confirmed.eyebrows_raised = true →
      d.eyebrow_baseline = some b →
      (∀ f ∈ fs, d.thresholds.eyebrowJudge (some b) f.ebp f.ht = true) →
      totalCount GestureType.EYEBROWS_RAISED (runFr d fs).2 = 0) ∧
    (∀ (d : Detector) (t le re mar ebp ht : ℚ),
      1 ≤ d.eyebrow_maxlen →
      d.thresholds.eyebrowGate ht = true →
      d.thresholds.eyebrowJudge d.eyebrow_baseline ebp ht = false →
      (d.detect t (FrameInput.face le re mar ebp ht)).2.1.gesture_confirmed.eyebrows_raised
        = false) ∧
    (∀ (th : Thresholds) (fs : List Fr),
      1 ≤ th.head_tilt_confirm_frames →
      (∀ f ∈ fs, th.headLeftJudge f.ht = true) →
      th.head_tilt_confirm_frames ≤ fs.length →
      totalCount GestureType.HEAD_TILT_LEFT (runFr (Detector.init th) fs).2 = 1) ∧
    (∀ (d : Detector) (fs : List Fr),
      d.gesture_confirmed.head_tilt_left = true →
      (∀ f ∈ fs, d.thresholds.headLeftJudge f.ht = true) →
      totalCount GestureType.HEAD_TILT_LEFT (runFr d fs).2 = 0) ∧
    (∀ (d : Detector) (t le re mar ebp ht : ℚ),
      1 ≤ d.headL_maxlen →
      d.thresholds.headCentered ht = true →
      (d.detect t (FrameInput.face le re mar ebp ht)).2.1.gesture_confirmed.head_tilt_left
        = false) ∧
    (∀ (th : Thresholds) (fs : List Fr),
      1 ≤ th.head_tilt_confirm_frames →
      (∀ f ∈ fs, th.headRightJudge f.ht = true) →
      th.head_tilt_confirm_frames ≤ fs.length →
      totalCount GestureType.HEAD_TILT_RIGHT (runFr (Detector.init th) fs).2 = 1) ∧
    (∀ (d : Detector) (fs : List Fr),
      d.gesture_confirmed.head_tilt_right = true →
      (∀ f ∈ fs, d.thresholds.headRightJudge f.ht = true) →
      totalCount GestureType.HEAD_TILT_RIGHT (runFr d fs).2 = 0) ∧
    (∀ (d : Detector) (t le re mar ebp ht : ℚ),
      1 ≤ d.headR_maxlen →
      d.thresholds.headCentered ht = true →
      (d.detect t (FrameInput.face le re mar ebp ht)).2.1.gesture_confirmed.head_tilt_right
        = false) := by
  refine ⟨?_, ?_, ?_, ?_, ?_, ?_, ?_, ?_, ?_, ?_, ?_, ?_⟩
  · intro th fs h1 hcond hlen
    have h := mouth_run_clean fs (Detector.init th) 0 rfl rfl rfl rfl
      (show 0 < th.mouth_confirm_frames from h1) hcond
    rw [h, if_pos (show (Detector.init th).thresholds.mouth_confirm_frames
      ≤ 0 + fs.length by show th.mouth_confirm_frames ≤ 0 + fs.length; omega)]
  · intro d fs h1 hcond
    have h := mouth_run_latched fs d h1 hcond
    rw [totalCount, h.1]; simp
  · intro d t le re mar ebp ht hml hmj
    exact mouth_neutral_clear d t le re mar ebp ht hml hmj
  · intro th b fs h1 hcond hlen
    have h := eyebrow_run_clean fs { Detector.init th with eyebrow_baseline := some b }
      b 0 rfl rfl rfl rfl (show 0 < th.eyebrow_confirm_frames from h1) rfl hcond
    rw [h, if_pos (show ({ Detector.init th with
        eyebrow_baseline := some b } : Detector).thresholds.eyebrow_confirm_frames
      ≤ 0 + fs.length by show th.eyebrow_confirm_frames ≤ 0 + fs.length; omega)]
  · intro d b fs h1 hb hcond
    have h := eyebrow_run_latched fs d b h1 hb hcond
    rw [totalCount, h.1]; simp
  · intro d t le re mar ebp ht hml hgate hj
    exact eyebrow_neutral_clear d t le re mar ebp ht hml hgate hj
  · intro th fs h1 hcond hlen
    have h := headL_run_clean fs (Detector.init th) 0 rfl rfl rfl rfl
      (show 0 < th.head_tilt_confirm_frames from h1) hcond
    rw [h, if_pos (show (Detector.init th).thresholds.head_tilt_confirm_frames
      ≤ 0 + fs.length by show th.head_tilt_confirm_frames ≤ 0 + fs.length; omega)]
  · intro d fs h1 hcond
    have h := headL_run_latched fs d h1 hcond
    rw [totalCount, h.1]; simp
  · intro d t le re mar ebp ht hml hc
    exact headL_neutral_clear d t le re mar ebp ht hml hc
  · intro th fs h1 hcond hlen
    have h := headR_run_clean fs (Detector.init th) 0 rfl rfl rfl rfl
      (show 0 < th.head_tilt_confirm_frames from h1) hcond
    rw [h, if_pos (show (Detector.init th).thresholds.head_tilt_confirm_frames
      ≤ 0 + fs.length by show th.head_tilt_confirm_frames ≤ 0 + fs.length; omega)]
  · intro d fs h1 hcond
    have h := headR_run_latched fs d h1 hcond
    rw [totalCount, h.1]; simp
  · intro d t le re mar ebp ht hml hc
    exact headR_neutral_clear d t le re mar ebp ht hml hc


/-- Witness for C1: each of the twelve parts applied at a concrete input
(default thresholds, confirm windows of length 5, five condition-true
frames for the fresh-channel parts). -/
theorem c1_level_triggered_exactly_once_witness :
    totalCount GestureType.MOUTH_OPEN
      (runFr (Detector.init {}) (List.replicate 5 ⟨0, 1, 1, 1, 0, 180⟩)).2 = 1 ∧
    totalCount GestureType.MOUTH_OPEN
      (runFr { Detector.init {} with gesture_confirmed := { mouth_open := true } }
        (List.replicate 5 ⟨0, 1, 1, 1, 0, 180⟩)).2 = 0 ∧
    ((Detector.init {}).detect 0
      (FrameInput.face 1 1 0 0 180)).2.1.gesture_confirmed.mouth_open = false ∧
    totalCount GestureType.EYEBROWS_RAISED
      (runFr { Detector.init {} with eyebrow_baseline := some 0 }
        (List.replicate 5 ⟨0, 1, 1, 0, 1, 180⟩)).2 = 1 ∧
    totalCount GestureType.EYEBROWS_RAISED
      (runFr { Detector.init {} with
                eyebrow_baseline := some 0,
                gesture_confirmed := { eyebrows_raised := true } }
        (List.replicate 5 ⟨0, 1, 1, 0, 1, 180⟩)).2 = 0 ∧
    (({ Detector.init {} with eyebrow_baseline := some 0 } : Detector).detect 0
      (FrameInput.face 1 1 0 0 180)).2.1.gesture_confirmed.eyebrows_raised = false ∧
    totalCount GestureType.HEAD_TILT_LEFT
      (runFr (Detector.init {}) (List.replicate 5 ⟨0, 1, 1, 0, 0, -170⟩)).2 = 1 ∧
    totalCount GestureType.HEAD_TILT_LEFT
      (runFr { Detector.init {} with gesture_confirmed := { head_tilt_left := true } }
        (List.replicate 5 ⟨0, 1, 1, 0, 0, -170⟩)).2 = 0 ∧
    ((Detector.init {}).detect 0
      (FrameInput.face 1 1 0 0 180)).2.1.gesture_confirmed.head_tilt_left = false ∧
    totalCount GestureType.HEAD_TILT_RIGHT
      (runFr (Detector.init {}) (List.replicate 5 ⟨0, 1, 1, 0, 0, 170⟩)).2 = 1 ∧
    totalCount GestureType.HEAD_TILT_RIGHT
      (runFr { Detector.init {} with gesture_confirmed := { head_tilt_right := true } }
        (List.replicate 5 ⟨0, 1, 1, 0, 0, 170⟩)).2 = 0 ∧
    ((Detector.init {}).detect 0
      (FrameInput.face 1 1 0 0 180)).2.1.gesture_confirmed.head_tilt_right = false :=
  ⟨c1_level_triggered_exactly_once.1 {} _ (by norm_num)
    (by intro f hf; rw [List.eq_of_mem_replicate hf]
        norm_num [Thresholds.mouthJudge]) (by norm_num),
   c1_level_triggered_exactly_once.2.1 _ _ rfl
    (by intro f hf; rw [List.eq_of_mem_replicate hf]
        norm_num [Thresholds.mouthJudge, Detector.init]),
   c1_level_triggered_exactly_once.2.2.1 _ 0 1 1 0 0 180
    (by norm_num [Detector.init])
    (by norm_num [Thresholds.mouthJudge, Detector.init]),
   c1_level_triggered_exactly_once.2.2.2.1 {} 0 _ (by norm_num)
    (by intro f hf; rw [List.eq_of_mem_replicate hf]
        norm_num [Thresholds.eyebrowJudge, Thresholds.eyebrowGate]) (by norm_num),
   c1_level_triggered_exactly_once.2.2.2.2.1 _ 0 _ rfl rfl
    (by intro f hf; rw [List.eq_of_mem_replicate hf]
        norm_num [Thresholds.eyebrowJudge, Thresholds.eyebrowGate, Detector.init]),
   c1_level_triggered_exactly_once.2.2.2.2.2.1 _ 0 1 1 0 0 180
    (by norm_num [Detector.init])
    (by norm_num [Thresholds.eyebrowGate, Detector.init])
    (by norm_num [Thresholds.eyebrowJudge, Thresholds.eyebrowGate, Detector.init]),
   c1_level_triggered_exactly_once.2.2.2.2.2.2.1 {} _ (by norm_num)
    (by intro f hf; rw [List.eq_of_mem_replicate hf]
        norm_num [Thresholds.headLeftJudge, Thresholds.headCentered]) (by norm_num),
   c1_level_triggered_exactly_once.2.2.2.2.2.2.2.1 _ _ rfl
    (by intro f hf; rw [List.eq_of_mem_replicate hf]
        norm_num [Thresholds.headLeftJudge, Thresholds.headCentered, Detector.init]),
   c1_level_triggered_exactly_once.2.2.2.2.2.2.2.2.1 _ 0 1 1 0 0 180
    (by norm_num [Detector.init])
    (by norm_num [Thresholds.headCentered, Detector.init]),
   c1_level_triggered_exactly_once.2.2.2.2.2.2.2.2.2.1 {} _ (by norm_num)
    (by intro f hf; rw [List.eq_of_mem_replicate hf]
        norm_num [Thresholds.headRightJudge, Thresholds.headCentered]) (by norm_num),
   c1_level_triggered_exactly_once.2.2.2.2.2.2.2.2.2.2.1 _ _ rfl
    (by intro f hf; rw [List.eq_of_mem_replicate hf]
        norm_num [Thresholds.headRightJudge, Thresholds.headCentered, Detector.init]),
   c1_level_triggered_exactly_once.2.2.2.2.2.2.2.2.2.2.2 _ 0 1 1 0 0 180
    (by norm_num [Detector.init])
    (by norm_num [Thresholds.headCentered, Detector.init])⟩

/-! ### Double-blink channel: edge characterization and segment lemmas -/

lemma detect_eye_getLast (d : Detector) (t le re mar ebp ht : ℚ)
    (h1 : 1 ≤ d.eye_maxlen) :
    (d.detect t (FrameInput.face le re mar ebp ht)).2.1.eye_closed_history.getLast? =
      some (d.thresholds.closedJudge le re) := by
  rw [detect_eye_hist]
  exact dequeAppend_getLast? _ _ _ h1

/-- With capacity at least two, the closed→open edge test reduces to: the
previous frame's sample was `true` and this frame's is `false`. -/
lemma edgeAt_eq (d : Detector) (le re : ℚ) (h2 : 2 ≤ d.eye_maxlen) :
    d.edgeAt le re =
      (d.eye_closed_history.getLast?.getD false &&
        !(d.thresholds.closedJudge le re)) := by
  simp only [Detector.edgeAt]
  by_cases hx : d.eye_closed_history = []
  · rw [hx, dequeAppend_eq _ _ _ (by omega : (1:ℕ) ≤ d.eye_maxlen)]
    simp
  · have hlen : 2 ≤ (dequeAppend d.eye_maxlen d.eye_closed_history
        (d.thresholds.closedJudge le re)).length := by
      rw [dequeAppend_length]
      have := List.length_pos.mpr hx
      omega
    rw [dequeAppend_penult _ _ _ h2 hx, decide_eq_true hlen]
    simp

lemma edgeAt_closed (d : Detector) (le re : ℚ)
    (hc : d.thresholds.closedJudge le re = true) :
    d.edgeAt le re = false := by
  unfold Detector.edgeAt
  simp [hc]

lemma edgeAt_open_after_open (d : Detector) (le re : ℚ) (h2 : 2 ≤ d.eye_maxlen)
    (hlast : d.eye_closed_history.getLast?.getD false = false) :
    d.edgeAt le re = false := by
  rw [edgeAt_eq d le re h2, hlast]
  simp

lemma edgeAt_open_after_closed (d : Detector) (le re : ℚ) (h2 : 2 ≤ d.eye_maxlen)
    (hlast : d.eye_closed_history.getLast?.getD false = true)
    (ho : d.thresholds.closedJudge le re = false) :
    d.edgeAt le re = true := by
  rw [edgeAt_eq d le re h2, hlast, ho]
  simp

lemma dbFiredAt_of_noedge (d : Detector) (t le re : ℚ)
    (hedge : d.edgeAt le re = false) : d.dbFiredAt t le re = false := by
  unfold Detector.dbFiredAt
  simp [hedge]

/-- A run of eyes-closed frames: no closed→open edge ever occurs, so the
blink state is untouched and no DOUBLE_BLINK is emitted. -/
lemma blink_run_closed (fs : List Fr) : ∀ d : Detector,
    2 ≤ d.eye_maxlen →
    (∀ f ∈ fs, d.thresholds.closedJudge f.le f.re = true) →
    outCounts GestureType.DOUBLE_BLINK (runFr d fs).2 = List.replicate fs.length 0 ∧
    (runFr d fs).1.blink_count = d.blink_count ∧
    (runFr d fs).1.last_blink_time = d.last_blink_time ∧
    (runFr d fs).1.last_gesture_time.double_blink = d.last_gesture_time.double_blink ∧
    (runFr d fs).1.eye_maxlen = d.eye_maxlen ∧
    (runFr d fs).1.thresholds = d.thresholds ∧
    (fs ≠ [] → (runFr d fs).1.eye_closed_history.getLast?.getD false = true) ∧
    (fs = [] → (runFr d fs).1 = d) := by
  induction fs with
  | nil => intro d _ _; exact ⟨rfl, rfl, rfl, rfl, rfl, rfl, by simp, fun _ => rfl⟩
  | cons f fs ih =>
    intro d h2 hc
    have hcf : d.thresholds.closedJudge f.le f.re = true := hc f (by simp)
    have hedge : d.edgeAt f.le f.re = false := edgeAt_closed d f.le f.re hcf
    have hfired : d.dbFiredAt f.t f.le f.re = false :=
      dbFiredAt_of_noedge d f.t f.le f.re hedge
    set d' := (d.detect f.t (FrameInput.face f.le f.re f.mar f.ebp f.ht)).2.1 with hd'
    have h2' : 2 ≤ d'.eye_maxlen := by rw [hd', detect_eye_maxlen]; omega
    have hih := ih d' h2' (by
      intro g hg; rw [hd', detect_thresholds]; exact hc g (List.mem_cons_of_mem _ hg))
    refine ⟨?_, ?_, ?_, ?_, ?_, ?_, ?_, by simp⟩
    · rw [runFr_cons, outCounts_cons, detect_count_db, hfired, List.length_cons,
        List.replicate_succ, hih.1]
      simp
    · rw [runFr_cons]
      rw [show (runFr d' fs).1.blink_count = d'.blink_count from hih.2.1, hd',
        detect_blink_count, hedge]
      simp
    · rw [runFr_cons]
      rw [show (runFr d' fs).1.last_blink_time = d'.last_blink_time from hih.2.2.1, hd',
        detect_last_blink_time, hedge]
      simp
    · rw [runFr_cons]
      rw [show (runFr d' fs).1.last_gesture_time.double_blink
          = d'.last_gesture_time.double_blink from hih.2.2.2.1, hd',
        detect_db_lt, hfired]
      simp
    · rw [runFr_cons]
      rw [show (runFr d' fs).1.eye_maxlen = d'.eye_maxlen from hih.2.2.2.2.1, hd',
        detect_eye_maxlen]
    · rw [runFr_cons]
      rw [show (runFr d' fs).1.thresholds = d'.thresholds from hih.2.2.2.2.2.1, hd',
        detect_thresholds]
    · intro _
      rw [runFr_cons]
      by_cases hfs : fs = []
      · rw [show (runFr d' fs).1 = d' from hih.2.2.2.2.2.2.2 hfs, hd',
          detect_eye_getLast d f.t f.le f.re f.mar f.ebp f.ht (by omega), hcf]
        rfl
      · exact hih.2.2.2.2.2.2.1 hfs

/-- A run of eyes-open frames starting while the previous sample is open:
again no edge, blink state untouched, no emission. -/
lemma blink_run_open (fs : List Fr) : ∀ d : Detector,
    2 ≤ d.eye_maxlen →
    (∀ f ∈ fs, d.thresholds.closedJudge f.le f.re = false) →
    d.eye_closed_history.getLast?.getD false = false →
    outCounts GestureType.DOUBLE_BLINK (runFr d fs).2 = List.replicate fs.length 0 ∧
    (runFr d fs).1.blink_count = d.blink_count ∧
    (runFr d fs).1.last_blink_time = d.last_blink_time ∧
    (runFr d fs).1.last_gesture_time.double_blink = d.last_gesture_time.double_blink ∧
    (runFr d fs).1.eye_maxlen = d.eye_maxlen ∧
    (runFr d fs).1.thresholds = d.thresholds ∧
    (runFr d fs).1.eye_closed_history.getLast?.getD false = false := by
  induction fs with
  | nil => intro d _ _ hlast; exact ⟨rfl, rfl, rfl, rfl, rfl, rfl, hlast⟩
  | cons f fs ih =>
    intro d h2 hc hlast
    have hcf : d.thresholds.closedJudge f.le f.re = false := hc f (by simp)
    have hedge : d.edgeAt f.le f.re = false :=
      edgeAt_open_after_open d f.le f.re h2 hlast
    have hfired : d.dbFiredAt f.t f.le f.re = false :=
      dbFiredAt_of_noedge d f.t f.le f.re hedge
    set d' := (d.detect f.t (FrameInput.face f.le f.re f.mar f.ebp f.ht)).2.1 with hd'
    have h2' : 2 ≤ d'.eye_maxlen := by rw [hd', detect_eye_maxlen]; omega
    have hih := ih d' h2' (by
      intro g hg; rw [hd', detect_thresholds]; exact hc g (List.mem_cons_of_mem _ hg))
      (by rw [hd', detect_eye_getLast d f.t f.le f.re f.mar f.ebp f.ht (by omega), hcf]
          rfl)
    refine ⟨?_, ?_, ?_, ?_, ?_, ?_, hih.2.2.2.2.2.2⟩
    · rw [runFr_cons, outCounts_cons, detect_count_db, hfired, List.length_cons,
        List.replicate_succ, hih.1]
      simp
    · rw [runFr_cons]
      rw [show (runFr d' fs).1.blink_count = d'.blink_count from hih.2.1, hd',
        detect_blink_count, hedge]
      simp
    · rw [runFr_cons]
      rw [show (runFr d' fs).1.last_blink_time = d'.last_blink_time from hih.2.2.1, hd',
        detect_last_blink_time, hedge]
      simp
    · rw [runFr_cons]
      rw [show (runFr d' fs).1.last_gesture_time.double_blink
          = d'.last_gesture_time.double_blink from hih.2.2.2.1, hd',
        detect_db_lt, hfired]
      simp
    · rw [runFr_cons]
      rw [show (runFr d' fs).1.eye_maxlen = d'.eye_maxlen from hih.2.2.2.2.1, hd',
        detect_eye_maxlen]
    · rw [runFr_cons]
      rw [show (runFr d' fs).1.thresholds = d'.thresholds from hih.2.2.2.2.2.1, hd',
        detect_thresholds]

lemma runFr_append_fst (d : Detector) (xs ys : List Fr) :
    (runFr d (xs ++ ys)).1 = (runFr (runFr d xs).1 ys).1 := by
  simp only [runFr, List.map_append, runDetect_append]

lemma runFr_append_snd (d : Detector) (xs ys : List Fr) :
    (runFr d (xs ++ ys)).2 = (runFr d xs).2 ++ (runFr (runFr d xs).1 ys).2 := by
  simp only [runFr, List.map_append, runDetect_append]

lemma runFr_cons_fst (d : Detector) (f : Fr) (fs : List Fr) :
    (runFr d (f :: fs)).1 =
      (runFr (d.detect f.t (FrameInput.face f.le f.re f.mar f.ebp f.ht)).2.1 fs).1 :=
  rfl

lemma runFr_cons_snd (d : Detector) (f : Fr) (fs : List Fr) :
    (runFr d (f :: fs)).2 =
      ((d.detect f.t (FrameInput.face f.le f.re f.mar f.ebp f.ht)).1,
       (d.detect f.t (FrameInput.face f.le f.re f.mar f.ebp f.ht)).2.2) ::
        (runFr (d.detect f.t (FrameInput.face f.le f.re f.mar f.ebp f.ht)).2.1 fs).2 :=
  rfl

lemma outCounts_append (g : GestureType) (a b : List (GestureState × List GestureType)) :
    outCounts g (a ++ b) = outCounts g a ++ outCounts g b := by
  simp [outCounts]

lemma outCounts_runFr_cons (g : GestureType) (d : Detector) (f : Fr) (fs : List Fr) :
    outCounts g (runFr d (f :: fs)).2 =
      (d.detect f.t (FrameInput.face f.le f.re f.mar f.ebp f.ht)).2.2.count g ::
        outCounts g
          (runFr (d.detect f.t (FrameInput.face f.le f.re f.mar f.ebp f.ht)).2.1 fs).2 :=
  rfl

/-- C2: an input sequence with exactly two eyes-closed→open transitions,
given by its run structure `o0 ++ k1 ++ (y1 :: o1) ++ k2 ++ (y2 :: o2) ++ k3`
(open run `o0`, non-empty closed runs `k1`/`k2` whose heads carry the
nonemptiness, transition frames `y1`/`y2` opening runs `y1 :: o1` and
`y2 :: o2`, optional trailing closed run `k3`): if the second transition
comes strictly less than `double_blink_interval` after the first, exactly
one DOUBLE_BLINK is emitted, on the second transition's frame; if strictly
more, none at all. -/
theorem c2_double_blink_interval (th : Thresholds)
    (h2 : 2 ≤ th.long_close_frames)
    (o0 k1 : List Fr) (y1 : Fr) (o1 : List Fr) (k2 : List Fr) (y2 : Fr)
    (o2 k3 : List Fr)
    (ho0 : ∀ f ∈ o0, th.closedJudge f.le f.re = false)
    (hk1 : ∀ f ∈ k1, th.closedJudge f.le f.re = true) (hk1n : k1 ≠ [])
    (hy1 : th.closedJudge y1.le y1.re = false)
    (ho1 : ∀ f ∈ o1, th.closedJudge f.le f.re = false)
    (hk2 : ∀ f ∈ k2, th.closedJudge f.le f.re = true) (hk2n : k2 ≠ [])
    (hy2 : th.closedJudge y2.le y2.re = false)
    (ho2 : ∀ f ∈ o2, th.closedJudge f.le f.re = false)
    (hk3 : ∀ f ∈ k3, th.closedJudge f.le f.re = true) :
    (y2.t - y1.t < th.double_blink_interval →
      outCounts GestureType.DOUBLE_BLINK
        (runFr (Detector.init th)
          (o0 ++ (k1 ++ ((y1 :: o1) ++ (k2 ++ ((y2 :: o2) ++ k3)))))).2 =
        List.replicate o0.length 0 ++ (List.replicate k1.length 0 ++
          ((0 : ℕ) :: (List.replicate o1.length 0 ++ (List.replicate k2.length 0 ++
            ((1 : ℕ) :: (List.replicate o2.length 0 ++ List.replicate k3.length 0))))))) ∧
    (th.double_blink_interval < y2.t - y1.t →
      outCounts GestureType.DOUBLE_BLINK
        (runFr (Detector.init th)
          (o0 ++ (k1 ++ ((y1 :: o1) ++ (k2 ++ ((y2 :: o2) ++ k3)))))).2 =
        List.replicate o0.length 0 ++ (List.replicate k1.length 0 ++
          ((0 : ℕ) :: (List.replicate o1.length 0 ++ (List.replicate k2.length 0 ++
            ((0 : ℕ) :: (List.replicate o2.length 0 ++ List.replicate k3.length 0))))))) := by
  -- segment o0 from the fresh detector
  obtain ⟨hc0, hb0, hl0, hg0, hm0, hth0, hlast0⟩ :=
    blink_run_open o0 (Detector.init th) h2 ho0 rfl
  set d0 := (runFr (Detector.init th) o0).1 with hd0
  have hb0' : d0.blink_count = 0 := hb0.trans rfl
  have hl0' : d0.last_blink_time = 0 := hl0.trans rfl
  have hg0' : d0.last_gesture_time.double_blink = none := hg0.trans rfl
  have hm0' : d0.eye_maxlen = th.long_close_frames := hm0.trans rfl
  have hth0' : d0.thresholds = th := hth0.trans rfl
  -- segment k1
  obtain ⟨hc1, hb1a, hl1a, hg1a, hm1a, hth1a, hlast1a, _⟩ :=
    blink_run_closed k1 d0 (by omega) (by rw [hth0']; exact hk1)
  set d1 := (runFr d0 k1).1 with hd1
  have hb1 : d1.blink_count = 0 := hb1a.trans hb0'
  have hl1 : d1.last_blink_time = 0 := hl1a.trans hl0'
  have hg1 : d1.last_gesture_time.double_blink = none := hg1a.trans hg0'
  have hm1 : d1.eye_maxlen = th.long_close_frames := hm1a.trans hm0'
  have hth1 : d1.thresholds = th := hth1a.trans hth0'
  have hlast1 : d1.eye_closed_history.getLast?.getD false = true := hlast1a hk1n
  -- transition frame y1: first blink completes, sequence counter starts
  have hedge1 : d1.edgeAt y1.le y1.re = true :=
    edgeAt_open_after_closed d1 y1.le y1.re (by omega) hlast1 (by rw [hth1]; exact hy1)
  have hav1 : d1.dbAvailAt y1.t = true := by
    unfold Detector.dbAvailAt
    rw [hg1]
    simp [availableAt]
  have hseq1 : d1.dbSeqAt y1.t = false := by
    unfold Detector.dbSeqAt
    rw [hb1]
    simp
  have hfired1 : d1.dbFiredAt y1.t y1.le y1.re = false := by
    unfold Detector.dbFiredAt
    rw [hseq1]
    simp
  set d2 := (d1.detect y1.t (FrameInput.face y1.le y1.re y1.mar y1.ebp y1.ht)).2.1
    with hd2
  have hcnt1 : (d1.detect y1.t
      (FrameInput.face y1.le y1.re y1.mar y1.ebp y1.ht)).2.2.count
      GestureType.DOUBLE_BLINK = 0 := by
    rw [detect_count_db, hfired1]
    simp
  have hb2 : d2.blink_count = 1 := by
    rw [hd2, detect_blink_count, hedge1, hav1, hseq1]
    simp
  have hl2 : d2.last_blink_time = y1.t := by
    rw [hd2, detect_last_blink_time, hedge1, hav1, hseq1]
    simp
  have hg2 : d2.last_gesture_time.double_blink = none := by
    rw [hd2, detect_db_lt, hfired1, if_neg (by simp)]
    exact hg1
  have hm2 : d2.eye_maxlen = th.long_close_frames := by
    rw [hd2, detect_eye_maxlen]
    exact hm1
  have hth2 : d2.thresholds = th := by
    rw [hd2, detect_thresholds]
    exact hth1
  have hlast2 : d2.eye_closed_history.getLast?.getD false = false := by
    rw [hd2, detect_eye_getLast d1 _ _ _ _ _ _ (by omega), hth1, hy1]
    rfl
  -- segment o1
  obtain ⟨hc2, hb3a, hl3a, hg3a, hm3a, hth3a, hlast3a⟩ :=
    blink_run_open o1 d2 (by omega) (by rw [hth2]; exact ho1) hlast2
  set d3 := (runFr d2 o1).1 with hd3
  have hb3 : d3.blink_count = 1 := hb3a.trans hb2
  have hl3 : d3.last_blink_time = y1.t := hl3a.trans hl2
  have hg3 : d3.last_gesture_time.double_blink = none := hg3a.trans hg2
  have hm3 : d3.eye_maxlen = th.long_close_frames := hm3a.trans hm2
  have hth3 : d3.thresholds = th := hth3a.trans hth2
  -- segment k2
  obtain ⟨hc3, hb4a, hl4a, hg4a, hm4a, hth4a, hlast4a, _⟩ :=
    blink_run_closed k2 d3 (by omega) (by rw [hth3]; exact hk2)
  set d4 := (runFr d3 k2).1 with hd4
  have hb4 : d4.blink_count = 1 := hb4a.trans hb3
  have hl4 : d4.last_blink_time = y1.t := hl4a.trans hl3
  have hg4 : d4.last_gesture_time.double_blink = none := hg4a.trans hg3
  have hm4 : d4.eye_maxlen = th.long_close_frames := hm4a.trans hm3
  have hth4 : d4.thresholds = th := hth4a.trans hth3
  have hlast4 : d4.eye_closed_history.getLast?.getD false = true := hlast4a hk2n
  -- transition frame y2
  have hedge2 : d4.edgeAt y2.le y2.re = true :=
    edgeAt_open_after_closed d4 y2.le y2.re (by omega) hlast4 (by rw [hth4]; exact hy2)
  have hav2 : d4.dbAvailAt y2.t = true := by
    unfold Detector.dbAvailAt
    rw [hg4]
    simp [availableAt]
  set d5 := (d4.detect y2.t (FrameInput.face y2.le y2.re y2.mar y2.ebp y2.ht)).2.1
    with hd5
  have hm5 : d5.eye_maxlen = th.long_close_frames := by
    rw [hd5, detect_eye_maxlen]
    exact hm4
  have hth5 : d5.thresholds = th := by
    rw [hd5, detect_thresholds]
    exact hth4
  have hlast5 : d5.eye_closed_history.getLast?.getD false = false := by
    rw [hd5, detect_eye_getLast d4 _ _ _ _ _ _ (by omega), hth4, hy2]
    rfl
  -- tails o2 and k3 produce no DOUBLE_BLINK whatever happened at y2
  obtain ⟨hc5, _, _, _, hm6a, hth6a, hlast6a⟩ :=
    blink_run_open o2 d5 (by omega) (by rw [hth5]; exact ho2) hlast5
  obtain ⟨hc6, _, _, _, _, _, _, _⟩ :=
    blink_run_closed k3 (runFr d5 o2).1 (by rw [hm6a, hm5]; omega)
      (by rw [hth6a, hth5]; exact hk3)
  -- split the run into segments once and for all
  have hsplit : outCounts GestureType.DOUBLE_BLINK
      (runFr (Detector.init th)
        (o0 ++ (k1 ++ ((y1 :: o1) ++ (k2 ++ ((y2 :: o2) ++ k3)))))).2 =
      List.replicate o0.length 0 ++ (List.replicate k1.length 0 ++
        ((0 : ℕ) :: (List.replicate o1.length 0 ++ (List.replicate k2.length 0 ++
          (((d4.detect y2.t
              (FrameInput.face y2.le y2.re y2.mar y2.ebp y2.ht)).2.2.count
              GestureType.DOUBLE_BLINK) ::
            (List.replicate o2.length 0 ++ List.replicate k3.length 0)))))) := by
    rw [runFr_append_snd, outCounts_append, hc0, ← hd0,
      runFr_append_snd, outCounts_append, hc1, ← hd1,
      runFr_append_snd, outCounts_append,
      outCounts_runFr_cons, hcnt1, ← hd2, hc2,
      runFr_cons_fst, ← hd2, ← hd3,
      runFr_append_snd, outCounts_append, hc3, ← hd4,
      runFr_append_snd, outCounts_append,
      outCounts_runFr_cons, ← hd5, hc5,
      runFr_cons_fst, ← hd5, hc6]
    simp [List.cons_append]
  constructor
  · intro hlt
    have hseq2 : d4.dbSeqAt y2.t = true := by
      unfold Detector.dbSeqAt
      rw [hb4, hl4, hth4]
      simp [hlt]
    have hfired2 : d4.dbFiredAt y2.t y2.le y2.re = true := by
      unfold Detector.dbFiredAt
      rw [hedge2, hav2, hseq2]
      rfl
    have hcnt2 : (d4.detect y2.t
        (FrameInput.face y2.le y2.re y2.mar y2.ebp y2.ht)).2.2.count
        GestureType.DOUBLE_BLINK = 1 := by
      rw [detect_count_db, hfired2]
      simp
    rw [hsplit, hcnt2]
  · intro hgt
    have hseq2 : d4.dbSeqAt y2.t = false := by
      unfold Detector.dbSeqAt
      rw [hl4]
      have : ¬ (y2.t - y1.t < th.double_blink_interval) := by
        push_neg; exact le_of_lt hgt
      simp [hth4, this]
    have hfired2 : d4.dbFiredAt y2.t y2.le y2.re = false := by
      unfold Detector.dbFiredAt
      rw [hseq2]
      simp
    have hcnt2 : (d4.detect y2.t
        (FrameInput.face y2.le y2.re y2.mar y2.ebp y2.ht)).2.2.count
        GestureType.DOUBLE_BLINK = 0 := by
      rw [detect_count_db, hfired2]
      simp
    rw [hsplit, hcnt2]

/-- Witness for C2: blink at 0.1s and second blink at 0.3s (0.2s apart,
inside the default 0.8s interval) emit one DOUBLE_BLINK on the second
transition frame; with the second blink at 1.5s (1.4s apart) none fire. -/
theorem c2_double_blink_interval_witness :
    outCounts GestureType.DOUBLE_BLINK
      (runFr (Detector.init {})
        [⟨0, 0, 0, 0, 0, 180⟩, ⟨0.1, 1, 1, 0, 0, 180⟩,
         ⟨0.2, 0, 0, 0, 0, 180⟩, ⟨0.3, 1, 1, 0, 0, 180⟩]).2 = [0, 0, 0, 1] ∧
    outCounts GestureType.DOUBLE_BLINK
      (runFr (Detector.init {})
        [⟨0, 0, 0, 0, 0, 180⟩, ⟨0.1, 1, 1, 0, 0, 180⟩,
         ⟨0.2, 0, 0, 0, 0, 180⟩, ⟨1.5, 1, 1, 0, 0, 180⟩]).2 = [0, 0, 0, 0] :=
  ⟨(c2_double_blink_interval {} (by norm_num) [] [⟨0, 0, 0, 0, 0, 180⟩]
      ⟨0.1, 1, 1, 0, 0, 180⟩ [] [⟨0.2, 0, 0, 0, 0, 180⟩] ⟨0.3, 1, 1, 0, 0, 180⟩ [] []
      (by simp)
      (by intro f hf; rw [List.mem_singleton] at hf; subst hf
          norm_num [Thresholds.closedJudge])
      (by simp)
      (by norm_num [Thresholds.closedJudge])
      (by simp)
      (by intro f hf; rw [List.mem_singleton] at hf; subst hf
          norm_num [Thresholds.closedJudge])
      (by simp)
      (by norm_num [Thresholds.closedJudge])
      (by simp) (by simp)).1 (by norm_num),
   (c2_double_blink_interval {} (by norm_num) [] [⟨0, 0, 0, 0, 0, 180⟩]
      ⟨0.1, 1, 1, 0, 0, 180⟩ [] [⟨0.2, 0, 0, 0, 0, 180⟩] ⟨1.5, 1, 1, 0, 0, 180⟩ [] []
      (by simp)
      (by intro f hf; rw [List.mem_singleton] at hf; subst hf
          norm_num [Thresholds.closedJudge])
      (by simp)
      (by norm_num [Thresholds.closedJudge])
      (by simp)
      (by intro f hf; rw [List.mem_singleton] at hf; subst hf
          norm_num [Thresholds.closedJudge])
      (by simp)
      (by norm_num [Thresholds.closedJudge])
      (by simp) (by simp)).2 (by norm_num)⟩

/-! ### Long-close channel -/

lemma lc_run_closed (fs : List Fr) : ∀ (d : Detector) (k : ℕ),
    d.eye_closed_history = List.replicate k true →
    d.eye_maxlen = d.thresholds.long_close_frames →
    d.last_gesture_time.long_close = none →
    k + fs.length ≤ d.thresholds.long_close_frames →
    (∀ f ∈ fs, d.thresholds.closedJudge f.le f.re = true) →
    outCounts GestureType.LONG_CLOSE (runFr d fs).2 =
      (if k + fs.length = d.thresholds.long_close_frames ∧ fs ≠ [] then
        List.replicate (fs.length - 1) 0 ++ [1]
      else List.replicate fs.length 0) := by
  induction fs with
  | nil =>
    intro d k _ _ _ _ _
    rw [runFr_nil]
    simp [outCounts_nil]
  | cons f fs ih =>
    intro d k h3 h4 h2 hk h5
    have hcf : d.thresholds.closedJudge f.le f.re = true := h5 f (by simp)
    have hklt : k < d.thresholds.long_close_frames := by
      have := List.length_cons f fs ▸ hk
      omega
    have heh : dequeAppend d.eye_maxlen d.eye_closed_history
        (d.thresholds.closedJudge f.le f.re) = List.replicate (k + 1) true := by
      rw [hcf, h3, h4, dequeAppend_replicate_lt _ _ _ hklt]
    have hfired : d.lcFiredAt f.t f.le f.re =
        decide (k + 1 = d.thresholds.long_close_frames) := by
      simp only [Detector.lcFiredAt, heh]
      simp [h2, availableAt, List.all_eq_true, List.length_replicate]
    have hth := detect_thresholds d f.t (FrameInput.face f.le f.re f.mar f.ebp f.ht)
    rw [runFr_cons_snd, outCounts_cons, detect_count_lc, hfired]
    by_cases hfill : k + 1 = d.thresholds.long_close_frames
    · -- the window fills now, so this must be the final frame
      have hfs : fs = [] := by
        by_contra hne
        have hpos : 0 < fs.length := List.length_pos.mpr hne
        simp only [List.length_cons] at hk
        omega
      subst hfs
      rw [runFr_nil]
      simp only [outCounts_nil, List.length_cons, List.length_nil]
      rw [if_pos (by simp [hfill]), if_pos (by constructor; omega; simp)]
      simp [hfill]
    · have hlt : (d.detect f.t
          (FrameInput.face f.le f.re f.mar f.ebp f.ht)).2.1.last_gesture_time.long_close
          = none := by
        rw [detect_lc_lt, hfired]
        simp [hfill, h2]
      have hhist : (d.detect f.t
          (FrameInput.face f.le f.re f.mar f.ebp f.ht)).2.1.eye_closed_history
          = List.replicate (k + 1) true := by
        rw [detect_eye_hist, heh]
      have hml : (d.detect f.t
          (FrameInput.face f.le f.re f.mar f.ebp f.ht)).2.1.eye_maxlen
          = (d.detect f.t
          (FrameInput.face f.le f.re f.mar f.ebp f.ht)).2.1.thresholds.long_close_frames := by
        rw [detect_eye_maxlen, hth, h4]
      have hrest := ih _ (k + 1) hhist hml hlt
        (by rw [hth]
            have := List.length_cons f fs ▸ hk
            omega)
        (by intro g hg; rw [hth]; exact h5 g (List.mem_cons_of_mem _ hg))
      rw [hrest, hth, if_neg (by simp [hfill])]
      by_cases hfin : k + 1 + fs.length = d.thresholds.long_close_frames ∧ fs ≠ []
      · obtain ⟨hfin1, hfin2⟩ := hfin
        rw [if_pos ⟨hfin1, hfin2⟩, if_pos (by
          refine ⟨?_, by simp⟩
          simp only [List.length_cons]
          omega)]
        have hpos : 0 < fs.length := List.length_pos.mpr hfin2
        obtain ⟨m, hm⟩ : ∃ m, fs.length = m + 1 := ⟨fs.length - 1, by omega⟩
        simp only [List.length_cons, hm, Nat.add_sub_cancel]
        rw [List.replicate_succ]
        simp
      · rw [if_neg hfin]
        by_cases hone : k + (f :: fs).length = d.thresholds.long_close_frames ∧
            (f :: fs) ≠ []
        · -- impossible: the window would have had to fill at this frame or later
          exfalso
          obtain ⟨hone1, _⟩ := hone
          simp only [List.length_cons] at hone1
          by_cases hfs : fs = []
          · subst hfs
            simp only [List.length_nil] at hone1
            omega
          · exact hfin ⟨by omega, hfs⟩
        · rw [if_neg hone]
          simp [List.replicate_succ]

/-- C3: from a fresh detector, a run of `long_close_frames - 1` consecutive
eyes-closed frames never fires LONG_CLOSE, while a run of exactly
`long_close_frames` closed frames fires it exactly once, on the frame that
fills the window. -/
theorem c3_long_close_window (th : Thresholds) (fs : List Fr)
    (h1 : 1 ≤ th.long_close_frames)
    (hc : ∀ f ∈ fs, th.closedJudge f.le f.re = true) :
    (fs.length = th.long_close_frames - 1 →
      outCounts GestureType.LONG_CLOSE (runFr (Detector.init th) fs).2 =
        List.replicate fs.length 0) ∧
    (fs.length = th.long_close_frames →
      outCounts GestureType.LONG_CLOSE (runFr (Detector.init th) fs).2 =
        List.replicate (th.long_close_frames - 1) 0 ++ [1]) := by
  constructor
  · intro hlen
    have h := lc_run_closed fs (Detector.init th) 0 rfl rfl rfl
      (by show 0 + fs.length ≤ th.long_close_frames; omega) hc
    rw [h, if_neg (by
      show ¬(0 + fs.length = th.long_close_frames ∧ fs ≠ [])
      intro hx
      omega)]
  · intro hlen
    have hne : fs ≠ [] := by
      intro hx
      rw [hx] at hlen
      simp at hlen
      omega
    have h := lc_run_closed fs (Detector.init th) 0 rfl rfl rfl
      (by show 0 + fs.length ≤ th.long_close_frames; omega) hc
    rw [h, if_pos (by
      show 0 + fs.length = th.long_close_frames ∧ fs ≠ []
      exact ⟨by omega, hne⟩), hlen]

/-- Witness for C3: with `long_close_frames = 3`, two closed frames fire
nothing and three closed frames fire LONG_CLOSE once, on the third frame. -/
theorem c3_long_close_window_witness :
    outCounts GestureType.LONG_CLOSE
      (runFr (Detector.init { long_close_frames := 3 })
        [⟨0, 0, 0, 0, 0, 180⟩, ⟨1, 0, 0, 0, 0, 180⟩]).2 = [0, 0] ∧
    outCounts GestureType.LONG_CLOSE
      (runFr (Detector.init { long_close_frames := 3 })
        [⟨0, 0, 0, 0, 0, 180⟩, ⟨1, 0, 0, 0, 0, 180⟩, ⟨2, 0, 0, 0, 0, 180⟩]).2 =
      [0, 0, 1] :=
  ⟨(c3_long_close_window { long_close_frames := 3 } _ (by norm_num)
      (by intro f hf; fin_cases hf <;> norm_num [Thresholds.closedJudge])).1
      (by norm_num),
   (c3_long_close_window { long_close_frames := 3 } _ (by norm_num)
      (by intro f hf; fin_cases hf <;> norm_num [Thresholds.closedJudge])).2
      (by norm_num)⟩

/-! ### Eyebrow baseline warm-up -/


lemma runDetect_cons_snd (d : Detector) (t : ℚ) (inp : FrameInput)
    (frames : List (ℚ × FrameInput)) :
    (runDetect d ((t, inp) :: frames)).2 =
      ((d.detect t inp).1, (d.detect t inp).2.2) ::
        (runDetect (d.detect t inp).2.1 frames).2 := rfl

/-- Warm-up invariant: while fewer than 10 gated-in samples have been seen,
the baseline is inactive and the baseline window holds exactly the gated-in
samples so far, so every frame up to and including the 10th gated-in one is
judged not-raised. -/
lemma eb_warmup_aux (frames : List (ℚ × FrameInput)) : ∀ (d : Detector) (c : ℕ),
    (c < 10 → d.eyebrow_baseline = none ∧ d.eyebrow_baseline_history.length = c) →
    ∀ j, j < frames.length →
      c + (frames.take (j + 1)).countP (fun p => gatedIn d.thresholds p.2) ≤ 10 →
      (((runDetect d frames).2.getD j
        (({} : GestureState), ([] : List GestureType))).1).eyebrows_raised = false := by
  induction frames with
  | nil => intro d c _ j hj _; simp at hj
  | cons p frames ih =>
    intro d c hinv j hj hcount
    obtain ⟨t, inp⟩ := p
    cases j with
    | zero =>
      cases inp with
      | noFace => rfl
      | face le re mar ebp ht =>
        rw [runDetect_cons_snd, List.getD_cons_zero, detect_st_eyebrows]
        by_cases hg : d.thresholds.eyebrowGate ht = true
        · have hone : (((t, FrameInput.face le re mar ebp ht) :: frames).take 1).countP
              (fun p => gatedIn d.thresholds p.2) = 1 := by
            simp [List.countP_cons, gatedIn, hg]
          have hc9 : c < 10 := by
            rw [hone] at hcount
            omega
          obtain ⟨hb, _⟩ := hinv hc9
          unfold Thresholds.eyebrowJudge
          rw [hb]
          simp
        · rw [Bool.not_eq_true] at hg
          unfold Thresholds.eyebrowJudge
          simp [hg]
    | succ j' =>
      set d' := (d.detect t inp).2.1 with hd'
      have hth' : d'.thresholds = d.thresholds := by rw [hd', detect_thresholds]
      have hsplitc : ((( t, inp) :: frames).take (j' + 1 + 1)).countP
          (fun p => gatedIn d.thresholds p.2) =
          (frames.take (j' + 1)).countP (fun p => gatedIn d.thresholds p.2) +
            (if gatedIn d.thresholds inp then 1 else 0) := by
        rw [List.take_succ_cons, List.countP_cons]
      have hcount' : (c + (if gatedIn d.thresholds inp then 1 else 0)) +
          (frames.take (j' + 1)).countP (fun p => gatedIn d'.thresholds p.2) ≤ 10 := by
        rw [hth']
        rw [hsplitc] at hcount
        omega
      have hinv' : c + (if gatedIn d.thresholds inp then 1 else 0) < 10 →
          d'.eyebrow_baseline = none ∧
          d'.eyebrow_baseline_history.length =
            c + (if gatedIn d.thresholds inp then 1 else 0) := by
        intro hlt
        have hc10 : c < 10 := by omega
        obtain ⟨hb, hlen⟩ := hinv hc10
        cases inp with
        | noFace =>
          constructor
          · rw [hd', detect_noFace]
            exact hb
          · rw [hd', detect_noFace]
            simp [gatedIn, hlen]
        | face le re mar ebp ht =>
          by_cases hg : d.thresholds.eyebrowGate ht = true
          · have hone : (if gatedIn d.thresholds (FrameInput.face le re mar ebp ht)
                then 1 else 0) = 1 := by
              simp [gatedIn, hg]
            have hcp : c + 1 < 10 := by
              rw [hone] at hlt
              omega
            have hj2 : d.thresholds.eyebrowJudge d.eyebrow_baseline ebp ht = false := by
              unfold Thresholds.eyebrowJudge
              rw [hb]
              simp
            have hupd : d.ebUpdateAt ebp ht = true := by
              unfold Detector.ebUpdateAt
              rw [hj2, hg]
              rfl
            have hlen' : (dequeAppend 30 d.eyebrow_baseline_history ebp).length
                = c + 1 := by
              rw [dequeAppend_length, hlen]
              omega
            constructor
            · rw [hd', detect_eb_baseline]
              simp only [Detector.ebBaselineNext, hupd]
              have hnot : ¬ (10 ≤ (dequeAppend 30 d.eyebrow_baseline_history ebp).length) := by
                rw [hlen']
                omega
              simp [hnot, hb]
            · rw [hd', detect_eb_bh, hupd]
              simp [hone, hlen']
          · rw [Bool.not_eq_true] at hg
            have hzero : (if gatedIn d.thresholds (FrameInput.face le re mar ebp ht)
                then 1 else 0) = 0 := by
              simp [gatedIn, hg]
            have hupd : d.ebUpdateAt ebp ht = false := by
              unfold Detector.ebUpdateAt
              simp [hg]
            constructor
            · rw [hd', detect_eb_baseline]
              simp only [Detector.ebBaselineNext, hupd]
              simp [hb]
            · rw [hd', detect_eb_bh, hupd]
              simp [hzero, hlen]
      have hj' : j' < frames.length := by
        simp only [List.length_cons] at hj
        omega
      have := ih d' (c + (if gatedIn d.thresholds inp then 1 else 0)) hinv' j' hj' hcount'
      rw [runDetect_cons_snd, List.getD_cons_succ]
      exact this

/-- C4: from a fresh detector, every frame up to and including the 10th
eyebrow-eligible (gated-in) face frame is judged not-raised regardless of
the eyebrow displacement, because the baseline stays inactive until 10
samples have accumulated; and a raised judgment can first occur on the 11th
gated-in sample (second conjunct: a concrete run where it does). -/
theorem c4_eyebrow_baseline_warmup :
    (∀ (frames : List (ℚ × FrameInput)) (th : Thresholds) (j : ℕ),
      j < frames.length →
      (frames.take (j + 1)).countP (fun p => gatedIn th p.2) ≤ 10 →
      (((runDetect (Detector.init th) frames).2.getD j
        (({} : GestureState), ([] : List GestureType))).1).eyebrows_raised = false) ∧
    (runDetect (Detector.init {})
      [(0, FrameInput.face 1 1 0 0 180), (1, FrameInput.face 1 1 0 0 180),
       (2, FrameInput.face 1 1 0 0 180), (3, FrameInput.face 1 1 0 0 180),
       (4, FrameInput.face 1 1 0 0 180), (5, FrameInput.face 1 1 0 0 180),
       (6, FrameInput.face 1 1 0 0 180), (7, FrameInput.face 1 1 0 0 180),
       (8, FrameInput.face 1 1 0 0 180), (9, FrameInput.face 1 1 0 0 180),
       (10, FrameInput.face 1 1 0 1 180)]).2.map (fun p => p.1.eyebrows_raised) =
      [false, false, false, false, false, false, false, false, false, false, true] := by
  constructor
  · intro frames th j hj hcount
    exact eb_warmup_aux frames (Detector.init th) 0 (fun _ => ⟨rfl, rfl⟩) j hj
      (by simpa using hcount)
  · set_option maxRecDepth 8192 in
    norm_num [runDetect, Detector.detect, Detector.init, dequeAppend, availableAt,
      Thresholds.closedJudge, Thresholds.mouthJudge, Thresholds.eyebrowGate,
      Thresholds.eyebrowJudge, Thresholds.headCentered, Thresholds.headLeftJudge,
      Thresholds.headRightJudge, fireEv]

/-- Witness for C4: a single gated-in frame with a huge displacement is
still judged not-raised. -/
theorem c4_eyebrow_baseline_warmup_witness :
    (((runDetect (Detector.init {}) [(0, FrameInput.face 1 1 0 5 180)]).2.getD 0
      (({} : GestureState), ([] : List GestureType))).1).eyebrows_raised = false :=
  c4_eyebrow_baseline_warmup.1 [(0, FrameInput.face 1 1 0 5 180)] {} 0
    (by norm_num)
    (by norm_num [List.countP_cons, List.countP_nil, gatedIn, Thresholds.eyebrowGate])

/-- C5 counterexample: with the default thresholds, the angle −170° has
magnitude strictly between 180−threshold = 165 and 180−deadzone = 173, yet
the per-frame snapshot classifies it in the left band (not as "neither
centered nor left nor right" as claimed): the band test never consults
`head_tilt_threshold`. -/
theorem c5_indeterminate_zone_counterexample :
    (180 - ({} : Thresholds).head_tilt_threshold < |(-170 : ℚ)| ∧
      |(-170 : ℚ)| < 180 - ({} : Thresholds).head_tilt_deadzone) ∧
    ((Detector.init {}).detect 0 (FrameInput.face 1 1 0 0 (-170))).1.head_tilt_left
      = true ∧
    ((Detector.init {}).detect 0 (FrameInput.face 1 1 0 0 (-170))).1.head_tilt_center
      = false := by
  refine ⟨by norm_num, ?_, ?_⟩
  · rw [detect_st_left]
    norm_num [Thresholds.headLeftJudge, Thresholds.headCentered, Detector.init]
  · rw [detect_st_center]
    norm_num [Thresholds.headCentered, Detector.init]

/-- C5 (amended): for every head-tilt angle whose magnitude lies strictly
between 180−threshold and 180−deadzone, the snapshot classifies the head as
not centered and as left when the angle is negative, right when positive —
the threshold plays no role in band membership; within that zone the only
angle classified as neither left nor right is 0. -/
theorem c5_band_classification_amended (d : Detector) (t le re mar ebp a : ℚ)
    (h1 : 180 - d.thresholds.head_tilt_threshold < |a|)
    (h2 : |a| < 180 - d.thresholds.head_tilt_deadzone) :
    ((d.detect t (FrameInput.face le re mar ebp a)).1.head_tilt_center = false) ∧
    ((d.detect t (FrameInput.face le re mar ebp a)).1.head_tilt_left
      = decide (a < 0)) ∧
    ((d.detect t (FrameInput.face le re mar ebp a)).1.head_tilt_right
      = decide (0 < a)) ∧
    (((d.detect t (FrameInput.face le re mar ebp a)).1.head_tilt_left = false ∧
      (d.detect t (FrameInput.face le re mar ebp a)).1.head_tilt_right = false)
      ↔ a = 0) := by
  have hcen : d.thresholds.headCentered a = false := by
    unfold Thresholds.headCentered
    simp only [decide_eq_false_iff_not]
    push_neg
    exact le_of_lt h2
  have hleft : d.thresholds.headLeftJudge a = decide (a < 0) := by
    unfold Thresholds.headLeftJudge
    rw [hcen]
    by_cases ha : a < 0
    · have h3 : d.thresholds.head_tilt_deadzone - 180 < a := by
        rw [abs_of_neg ha] at h2
        linarith
      simp [ha, h3]
    · simp [ha]
  have hright : d.thresholds.headRightJudge a = decide (0 < a) := by
    unfold Thresholds.headRightJudge
    rw [hcen]
    by_cases ha : 0 < a
    · have : a < 180 - d.thresholds.head_tilt_deadzone := by
        rw [abs_of_pos ha] at h2
        linarith
      simp [ha, this]
    · simp [ha]
  refine ⟨by rw [detect_st_center, hcen], by rw [detect_st_left, hleft],
    by rw [detect_st_right, hright], ?_⟩
  rw [detect_st_left, detect_st_right, hleft, hright]
  constructor
  · intro ⟨hl, hr⟩
    simp only [decide_eq_false_iff_not] at hl hr
    linarith [le_of_not_lt hl, le_of_not_lt hr]
  · intro ha
    subst ha
    simp

/-- Witness for C5 (amended): the counterexample angle −170° is classified
left, not right, and is not in the neither-zone. -/
theorem c5_band_classification_amended_witness :
    (((Detector.init {}).detect 0
        (FrameInput.face 1 1 0 0 (-170))).1.head_tilt_center = false) ∧
    (((Detector.init {}).detect 0
        (FrameInput.face 1 1 0 0 (-170))).1.head_tilt_left = decide ((-170 : ℚ) < 0)) ∧
    (((Detector.init {}).detect 0
        (FrameInput.face 1 1 0 0 (-170))).1.head_tilt_right = decide ((0 : ℚ) < -170)) ∧
    ((((Detector.init {}).detect 0
        (FrameInput.face 1 1 0 0 (-170))).1.head_tilt_left = false ∧
      ((Detector.init {}).detect 0
        (FrameInput.face 1 1 0 0 (-170))).1.head_tilt_right = false)
      ↔ (-170 : ℚ) = 0) :=
  c5_band_classification_amended (Detector.init {}) 0 1 1 0 0 (-170)
    (by norm_num [Detector.init]) (by norm_num [Detector.init])

set_option maxRecDepth 8192 in
/-- C6: with the default thresholds (deadzone 7°, threshold 15°, head-tilt
confirm window 5), five consecutive face frames at −170° are each
classified not-centered and in the left band, and HEAD_TILT_LEFT is
emitted exactly on the 5th frame, when the confirm window first fills. -/
theorem c6_head_tilt_left_scenario :
    ({} : Thresholds).head_tilt_deadzone = 7 ∧
    ({} : Thresholds).head_tilt_threshold = 15 ∧
    ({} : Thresholds).head_tilt_confirm_frames = 5 ∧
    (runDetect (Detector.init {})
      [(0, FrameInput.face 1 1 0 0 (-170)), (1, FrameInput.face 1 1 0 0 (-170)),
       (2, FrameInput.face 1 1 0 0 (-170)), (3, FrameInput.face 1 1 0 0 (-170)),
       (4, FrameInput.face 1 1 0 0 (-170))]).2.map
      (fun p => (p.1.head_tilt_center, p.1.head_tilt_left)) =
      List.replicate 5 (false, true) ∧
    outCounts GestureType.HEAD_TILT_LEFT
      (runDetect (Detector.init {})
        [(0, FrameInput.face 1 1 0 0 (-170)), (1, FrameInput.face 1 1 0 0 (-170)),
         (2, FrameInput.face 1 1 0 0 (-170)), (3, FrameInput.face 1 1 0 0 (-170)),
         (4, FrameInput.face 1 1 0 0 (-170))]).2 = [0, 0, 0, 0, 1] := by
  refine ⟨rfl, rfl, rfl, ?_, ?_⟩ <;>
  norm_num [runDetect, Detector.detect, Detector.init, dequeAppend, availableAt,
    Thresholds.closedJudge, Thresholds.mouthJudge, Thresholds.eyebrowGate,
    Thresholds.eyebrowJudge, Thresholds.headCentered, Thresholds.headLeftJudge,
    Thresholds.headRightJudge, fireEv, outCounts, List.count, List.replicate]

/-- C7: a frame with no detected face yields the default snapshot with
`face_detected = false`, leaves the detector completely unchanged (in
particular every rolling window and the eyebrow baseline accumulator), and
emits no event. -/
theorem c7_no_face_pauses_state (d : Detector) (t : ℚ) :
    (d.detect t FrameInput.noFace).1.face_detected = false ∧
    (d.detect t FrameInput.noFace).1 = ({} : GestureState) ∧
    (d.detect t FrameInput.noFace).2.1 = d ∧
    (d.detect t FrameInput.noFace).2.1.eye_closed_history = d.eye_closed_history ∧
    (d.detect t FrameInput.noFace).2.1.mouth_open_history = d.mouth_open_history ∧
    (d.detect t FrameInput.noFace).2.1.eyebrow_raised_history
      = d.eyebrow_raised_history ∧
    (d.detect t FrameInput.noFace).2.1.head_tilt_left_history
      = d.head_tilt_left_history ∧
    (d.detect t FrameInput.noFace).2.1.head_tilt_right_history
      = d.head_tilt_right_history ∧
    (d.detect t FrameInput.noFace).2.1.eyebrow_baseline_history
      = d.eyebrow_baseline_history ∧
    (d.detect t FrameInput.noFace).2.1.eyebrow_baseline = d.eyebrow_baseline ∧
    (d.detect t FrameInput.noFace).2.2 = [] :=
  ⟨rfl, rfl, rfl, rfl, rfl, rfl, rfl, rfl, rfl, rfl, rfl⟩

/-- C8: `update_thresholds` swaps the threshold record wholesale and
changes no other field: all deque capacities (which the constructor sized
from the construction-time thresholds) and all window contents survive the
call unchanged. -/
theorem c8_update_thresholds_swaps_config_only (d : Detector) (nt th : Thresholds) :
    (d.update_thresholds nt).thresholds = nt ∧
    (d.update_thresholds nt).eye_maxlen = d.eye_maxlen ∧
    (d.update_thresholds nt).mouth_maxlen = d.mouth_maxlen ∧
    (d.update_thresholds nt).eyebrow_maxlen = d.eyebrow_maxlen ∧
    (d.update_thresholds nt).headL_maxlen = d.headL_maxlen ∧
    (d.update_thresholds nt).headR_maxlen = d.headR_maxlen ∧
    (d.update_thresholds nt).eye_closed_history = d.eye_closed_history ∧
    (d.update_thresholds nt).mouth_open_history = d.mouth_open_history ∧
    (d.update_thresholds nt).eyebrow_raised_history = d.eyebrow_raised_history ∧
    (d.update_thresholds nt).head_tilt_left_history = d.head_tilt_left_history ∧
    (d.update_thresholds nt).head_tilt_right_history = d.head_tilt_right_history ∧
    (d.update_thresholds nt).last_blink_time = d.last_blink_time ∧
    (d.update_thresholds nt).blink_count = d.blink_count ∧
    (d.update_thresholds nt).eyebrow_baseline_history = d.eyebrow_baseline_history ∧
    (d.update_thresholds nt).eyebrow_baseline = d.eyebrow_baseline ∧
    (d.update_thresholds nt).last_gesture_time = d.last_gesture_time ∧
    (d.update_thresholds nt).gesture_confirmed = d.gesture_confirmed ∧
    ((Detector.init th).update_thresholds nt).eye_maxlen = th.long_close_frames ∧
    ((Detector.init th).update_thresholds nt).mouth_maxlen
      = th.mouth_confirm_frames ∧
    ((Detector.init th).update_thresholds nt).eyebrow_maxlen
      = th.eyebrow_confirm_frames ∧
    ((Detector.init th).update_thresholds nt).headL_maxlen
      = th.head_tilt_confirm_frames ∧
    ((Detector.init th).update_thresholds nt).headR_maxlen
      = th.head_tilt_confirm_frames :=
  ⟨rfl, rfl, rfl, rfl, rfl, rfl, rfl, rfl, rfl, rfl, rfl, rfl, rfl, rfl, rfl, rfl,
   rfl, rfl, rfl, rfl, rfl, rfl⟩

/-! ### Feature extractor over ℝ (C9) -/


lemma pointDist_nonneg (p q : ℝ × ℝ) : 0 ≤ pointDist p q :=
  Real.sqrt_nonneg _

lemma ratio_guard_eq (v h : ℝ) (hnn : 0 ≤ h) :
    (if 0 < h then v / h else 0) = (if h = 0 then 0 else v / h) := by
  rcases eq_or_lt_of_le hnn with h0 | h0
  · rw [if_neg (by rw [← h0]; exact lt_irrefl 0), if_pos h0.symm]
  · rw [if_pos h0, if_neg (ne_of_gt h0)]

/-- C9: the eye-aspect-ratio computation equals the vertical top-bottom
distance divided by the horizontal left-right distance, and yields 0
(rather than raising) exactly when that horizontal distance is 0; the
mouth-aspect-ratio computation satisfies the identical property over the
fixed mouth landmarks. -/
theorem c9_aspect_ratio_zero_guard (landmarks : ℕ → ℝ × ℝ)
    (top bottom left right : ℕ) :
    calculateEyeAR landmarks top bottom left right =
      (if pointDist (landmarks left) (landmarks right) = 0 then 0
       else pointDist (landmarks top) (landmarks bottom) /
         pointDist (landmarks left) (landmarks right)) ∧
    calculateMouthAR landmarks =
      (if pointDist (landmarks FaceLandmarks.MOUTH_LEFT)
          (landmarks FaceLandmarks.MOUTH_RIGHT) = 0 then 0
       else pointDist (landmarks FaceLandmarks.MOUTH_TOP)
          (landmarks FaceLandmarks.MOUTH_BOTTOM) /
         pointDist (landmarks FaceLandmarks.MOUTH_LEFT)
          (landmarks FaceLandmarks.MOUTH_RIGHT)) :=
  ⟨ratio_guard_eq _ _ (pointDist_nonneg _ _),
   ratio_guard_eq _ _ (pointDist_nonneg _ _)⟩

/-- C10 (implicit): on a face frame whose head pose fails the eyebrow gate,
the eyebrow confirm window still receives a sample — always `false` — so an
in-progress all-true confirm run is broken, while the baseline accumulator
and baseline value are untouched and the snapshot reports not-raised. -/
theorem c10_gated_out_frame_appends_false (d : Detector) (t le re mar ebp ht : ℚ)
    (hgate : d.thresholds.eyebrowGate ht = false) :
    (d.detect t (FrameInput.face le re mar ebp ht)).2.1.eyebrow_raised_history =
      dequeAppend d.eyebrow_maxlen d.eyebrow_raised_history false ∧
    (d.detect t (FrameInput.face le re mar ebp ht)).1.eyebrows_raised = false ∧
    (d.detect t (FrameInput.face le re mar ebp ht)).2.1.eyebrow_baseline_history =
      d.eyebrow_baseline_history ∧
    (d.detect t (FrameInput.face le re mar ebp ht)).2.1.eyebrow_baseline =
      d.eyebrow_baseline ∧
    (1 ≤ d.eyebrow_maxlen →
      (d.detect t
        (FrameInput.face le re mar ebp ht)).2.1.eyebrow_raised_history.all
        (fun b => b) = false) := by
  have hj : d.thresholds.eyebrowJudge d.eyebrow_baseline ebp ht = false := by
    unfold Thresholds.eyebrowJudge
    simp [hgate]
  have hupd : d.ebUpdateAt ebp ht = false := by
    unfold Detector.ebUpdateAt
    simp [hgate]
  refine ⟨?_, ?_, ?_, ?_, ?_⟩
  · rw [detect_eb_hist, hj]
  · rw [detect_st_eyebrows, hj]
  · rw [detect_eb_bh, hupd]
    simp
  · rw [detect_eb_baseline]
    simp only [Detector.ebBaselineNext, hupd]
    simp
  · intro hml
    rw [detect_eb_hist, hj]
    exact dequeAppend_all_false _ _ hml

/-- Witness for C10: the head is upright at angle 0 (gate requires more
than 165° of magnitude with the default thresholds). -/
theorem c10_gated_out_frame_appends_false_witness :
    ((Detector.init {}).detect 0
      (FrameInput.face 1 1 0 0 0)).2.1.eyebrow_raised_history =
      dequeAppend (Detector.init {}).eyebrow_maxlen
        (Detector.init {}).eyebrow_raised_history false ∧
    ((Detector.init {}).detect 0 (FrameInput.face 1 1 0 0 0)).1.eyebrows_raised
      = false ∧
    ((Detector.init {}).detect 0
      (FrameInput.face 1 1 0 0 0)).2.1.eyebrow_baseline_history =
      (Detector.init {}).eyebrow_baseline_history ∧
    ((Detector.init {}).detect 0
      (FrameInput.face 1 1 0 0 0)).2.1.eyebrow_baseline =
      (Detector.init {}).eyebrow_baseline ∧
    (1 ≤ (Detector.init {}).eyebrow_maxlen →
      ((Detector.init {}).detect 0
        (FrameInput.face 1 1 0 0 0)).2.1.eyebrow_raised_history.all
        (fun b => b) = false) :=
  c10_gated_out_frame_appends_false (Detector.init {}) 0 1 1 0 0 0
    (by norm_num [Thresholds.eyebrowGate, Detector.init])
